import Mathlib

/-!
# Basler multi-camera grab programs

A shallow embedding of the two programs of the repository,
`multi_grab_v1.cpp` (four cameras, live display) and
`record_3_camera_test.cpp` (three cameras, live display and recording).

Both programs are a single `main` that talks to the pylon runtime, to OpenCV
and to the standard streams.  The embedding makes that environment explicit:
a `World` is a script that says, for every call the program may make, whether
the call throws and which value it returns.  Running a program against a
world yields the ordered list of calls it made (`Event`s) and how it ended.
-/

namespace Basler

/-! ## Data model -/

/-- The camera objects `Camera_A` .. `Camera_D` (and the per-camera variables
that carry the same suffix). -/
inductive Cam where
  | A | B | C | D
  deriving DecidableEq, Repr

/-- What the programs read from a `CGrabResultPtr`. -/
structure GrabResult where
  /-- Value of `GrabSucceeded()`. -/
  succeeded : Bool
  /-- Value of `GetErrorCode()`. -/
  errorCode : Nat
  /-- Value of `GetErrorDescription()`. -/
  errorDescription : String
  /-- Value of `GetHeight()`. -/
  height : Nat
  /-- Value of `GetWidth()`. -/
  width : Nat
  deriving DecidableEq, Repr

/-- An exception object in flight.  `generic` is a `Pylon::GenericException`
(or a class derived from it, such as the timeout exception of
`RetrieveResult`); `other` is any exception of another type. -/
inductive Exn where
  | generic (description : String)
  | other (what : String)
  deriving DecidableEq, Repr

/-- The calls the programs make, with their arguments.  `k` is the index of
the loop iteration in which the call is made and `occ` tells apart calls that
occur more than once in the program text with the same arguments. -/
inductive Event where
  | pylonInitialize
  | getInstance
  | enumerateDevices
  | setMaxNumBuffer (c : Cam) (n : Nat)
  | deviceAt (i : Nat)
  | createDevice (i : Nat)
  | attach (c : Cam) (i : Nat)
  | openCamera (c : Cam)
  | getSerialNumber (c : Cam)
  | coutUsingDevice (c : Cam) (serial : String)
  | startGrabbing (c : Cam)
  | setOutputPixelFormat (c : Cam)
  | nodeParameter (c : Cam) (node : String)
  | nodeGetValue (c : Cam) (node : String) (occ : Nat)
  | pixelTypeFromNodeValue (v : Int)
  | writerSetParameter (c : Cam) (width height pixelType fps quality : Nat)
  | writerOpen (c : Cam) (path : String)
  | isGrabbing (k : Nat)
  | retrieveResult (c : Cam) (k : Nat) (timeoutMs : Nat)
  | writerAdd (c : Cam) (k : Nat) (occ : Nat) (frame : GrabResult)
  | convert (c : Cam) (k : Nat) (frame : GrabResult)
  | matWrap (c : Cam) (k : Nat) (rows cols : Nat)
  | resize (c : Cam) (k : Nat)
  | imshow (window : String) (c : Cam) (k : Nat)
  | waitKey (k : Nat) (delay : Nat)
  | coutError (code : Nat) (description : String)
  | cerrException (description : String)
  | cerrPressEnter
  | pylonTerminate
  deriving DecidableEq, Repr

/-- The environment of one run. -/
structure World where
  /-- Whether a call throws, and what. -/
  throws : Event → Option Exn
  /-- Number of entries `EnumerateDevices` puts into `devices`; also its
  return value. -/
  deviceCount : Nat
  /-- Serial number reported by a camera. -/
  serial : Cam → String
  /-- Value of the integer node `node` of a camera at its `occ`-th read. -/
  nodeValue : Cam → String → Nat → Int
  /-- The mapping of `CPixelTypeMapper::GetPylonPixelTypeFromNodeValue`. -/
  pixelTypeOf : Int → Nat
  /-- Value of `Camera_A.IsGrabbing()` at the head of iteration `k`. -/
  grabbing : Nat → Bool
  /-- The grab result a camera delivers in iteration `k`. -/
  grab : Cam → Nat → GrabResult
  /-- Value of `cv::waitKey(1)` in iteration `k`. -/
  key : Nat → Int
  /-- The characters waiting on standard input. -/
  stdin : List Char

/-- Why control left the straight-line flow.  `thrown` is a C++ exception;
`outOfRange i` is the access `devices[i]` past the end of the device list,
whose behaviour the language leaves undefined. -/
inductive Abort where
  | thrown (e : Exn)
  | outOfRange (i : Nat)
  deriving DecidableEq, Repr

deriving instance DecidableEq for Except

/-- A piece of program run against a world: the calls it made, in order, and
either its value or the reason it was left early. -/
structure Run (α : Type) where
  events : List Event
  result : Except Abort α
  deriving DecidableEq

namespace Run

/-- A step that makes no call. -/
def pure {α : Type} (a : α) : Run α := ⟨[], .ok a⟩

/-- Sequencing: the second part runs only when the first was not left early. -/
def bind {α β : Type} (m : Run α) (f : α → Run β) : Run β :=
  match m.result with
  | .ok a => ⟨m.events ++ (f a).events, (f a).result⟩
  | .error e => ⟨m.events, .error e⟩

instance : Monad Run where
  pure := Run.pure
  bind := Run.bind

/-- A `throw` statement of the program itself. -/
def raise {α : Type} (e : Exn) : Run α := ⟨[], .error (.thrown e)⟩

end Run

/-- A statement that writes to `cout` or `cerr`: it is recorded and returns. -/
def emit (e : Event) : Run Unit := ⟨[e], .ok ()⟩

/-- A call that returns nothing: it is recorded, then it returns or throws. -/
def call (w : World) (e : Event) : Run Unit :=
  ⟨[e], match w.throws e with
        | none => .ok ()
        | some x => .error (.thrown x)⟩

/-- A call that returns the value `v` unless it throws. -/
def callVal {α : Type} (w : World) (e : Event) (v : α) : Run α :=
  ⟨[e], match w.throws e with
        | none => .ok v
        | some x => .error (.thrown x)⟩

/-- The access `devices[i]`. -/
def deviceAt (w : World) (i : Nat) : Run Nat :=
  ⟨[.deviceAt i], if i < w.deviceCount then .ok i else .error (.outOfRange i)⟩

/-- The call `Camera_c.RetrieveResult(timeoutMs, ptrGrabResult_c,
TimeoutHandling_ThrowException)`. -/
def retrieveResult (w : World) (c : Cam) (k : Nat) (timeoutMs : Nat) : Run GrabResult :=
  callVal w (.retrieveResult c k timeoutMs) (w.grab c k)

/-- The conversion `(uint32_t) v` of a 64-bit node value. -/
def toUInt32 (v : Int) : Nat := (v % 4294967296).toNat

/-- The conversion `char(v)` of the `int` returned by `cv::waitKey`, as the
character code in 0..255. -/
def toCharCode (v : Int) : Nat := (v % 256).toNat

/-- How one pass through the loop ends. -/
inductive Control where
  /-- The loop body ran to its end; control returns to the loop head. -/
  | next
  /-- The loop condition `Camera_A.IsGrabbing()` was false. -/
  | notGrabbing
  /-- The `break` after the key poll. -/
  | breakKey
  deriving DecidableEq, Repr

/-! ## The skeleton shared by both programs -/

/-- The constant `c_countOfImagesToGrab` of both files.  Neither `main` uses
it: `StartGrabbing` is called without a count, so only `IsGrabbing()`, the
`break` and exceptions end the loop. -/
def c_countOfImagesToGrab : Nat := 10000

/-- The `while` loop, one entry per pass, in order.  A pass that ends in
`Control.next` is followed by the next pass; any other pass is the last.
`fuel` bounds the number of passes that are unrolled. -/
def loop (iter : Nat → Run Control) : Nat → Nat → List (Run Control)
  | 0, _ => []
  | fuel + 1, k =>
    match (iter k).result with
    | .ok .next => iter k :: loop iter fuel (k + 1)
    | _ => [iter k]

/-- How an unrolled loop ended: `none` when its last unrolled pass asks for
another one, otherwise the way control left the loop. -/
def loopEnd (passes : List (Run Control)) : Option (Except Abort Unit) :=
  match passes.getLast? with
  | none => none
  | some r =>
    match r.result with
    | .ok .next => none
    | .ok _ => some (.ok ())
    | .error a => some (.error a)

/-- The calls of all passes, in order. -/
def passEvents (passes : List (Run Control)) : List Event :=
  (passes.map (fun r => r.events)).flatten

/-- A run of the `try` block: the calls made and, unless the loop was still
going when the fuel ran out, how the block was left. -/
structure TryRun where
  events : List Event
  result : Option (Except Abort Unit)

/-- The `try` block: the startup code followed by the loop. -/
def tryBlock (startup : Run Unit) (iter : Nat → Run Control) (fuel : Nat) : TryRun :=
  match startup.result with
  | .error a => ⟨startup.events, some (.error a)⟩
  | .ok _ => ⟨startup.events ++ passEvents (loop iter fuel 0), loopEnd (loop iter fuel 0)⟩

/-- How a run of `main` ends. -/
inductive Outcome where
  /-- The value of `return exitCode`. -/
  | returned (exitCode : Int)
  /-- An exception that no handler catches left `main`. -/
  | terminated (e : Exn)
  /-- The program read `devices[i]` past the end of the list. -/
  | undefinedBehaviour (i : Nat)
  /-- Standard input holds no newline: `while (cin.get() != '\n')` never ends. -/
  | waitingForEnter
  /-- The loop was still going when the fuel ran out. -/
  | running
  deriving DecidableEq, Repr

/-- A run of `main`. -/
structure MainRun where
  events : List Event
  outcome : Outcome

/-- The code after the `try`/`catch`: the prompt, the wait for a newline,
`PylonTerminate()` and `return exitCode`. -/
def epilogue (w : World) (events : List Event) (exitCode : Int) : MainRun :=
  if w.stdin.contains '\n' then
    match w.throws .pylonTerminate with
    | none => ⟨events ++ [.cerrPressEnter, .pylonTerminate], .returned exitCode⟩
    | some x => ⟨events ++ [.cerrPressEnter, .pylonTerminate], .terminated x⟩
  else ⟨events ++ [.cerrPressEnter], .waitingForEnter⟩

/-- The body of `main` around a given `try` block: `exitCode` starts at 0,
the handler for `GenericException` prints the description and sets it to
1. -/
def program (w : World) (startup : Run Unit) (iter : Nat → Run Control) (fuel : Nat) :
    MainRun :=
  match w.throws .pylonInitialize with
  | some x => ⟨[.pylonInitialize], .terminated x⟩
  | none =>
    let t := tryBlock startup iter fuel
    match t.result with
    | none => ⟨.pylonInitialize :: t.events, .running⟩
    | some (.ok _) => epilogue w (.pylonInitialize :: t.events) 0
    | some (.error (.thrown (.generic d))) =>
      epilogue w (.pylonInitialize :: t.events ++ [.cerrException d]) 1
    | some (.error (.thrown (.other x))) =>
      ⟨.pylonInitialize :: t.events, .terminated (.other x)⟩
    | some (.error (.outOfRange i)) =>
      ⟨.pylonInitialize :: t.events, .undefinedBehaviour i⟩

/-- The loop gets to pass `k`: every earlier pass ran its body to the end. -/
def Reaches (iter : Nat → Run Control) (k : Nat) : Prop :=
  ∀ i, i < k → (iter i).result = .ok .next

instance (iter : Nat → Run Control) (k : Nat) : Decidable (Reaches iter k) := by
  unfold Reaches
  exact inferInstance

/-- The events of `main` up to the end of pass `k` of the loop, when the
startup code ran through. -/
def eventsThrough (startup : Run Unit) (iter : Nat → Run Control) (k : Nat) : List Event :=
  .pylonInitialize ::
    (startup.events ++ (passEvents ((List.range k).map iter) ++ (iter k).events))

/-! ## `record_3_camera_test.cpp` -/

namespace Record

/-- Lines 48-55: the device list and the guard on its size. -/
def enumerate (w : World) : Run Unit := do
  call w .getInstance
  let n ← callVal w .enumerateDevices w.deviceCount
  if n = 0 then Run.raise (.generic "No camera present.")

/-- Lines 56-66: buffer counts, then attach and open the three cameras. -/
def attachCameras (w : World) : Run Unit := do
  call w (.setMaxNumBuffer .A 4)
  call w (.setMaxNumBuffer .B 4)
  call w (.setMaxNumBuffer .C 4)
  call w (.setMaxNumBuffer .D 4)
  let d0 ← deviceAt w 0
  call w (.createDevice d0)
  call w (.attach .A d0)
  call w (.openCamera .A)
  let d1 ← deviceAt w 1
  call w (.createDevice d1)
  call w (.attach .B d1)
  call w (.openCamera .B)
  let d2 ← deviceAt w 2
  call w (.createDevice d2)
  call w (.attach .C d2)
  call w (.openCamera .C)

/-- Lines 68-82: print the serial numbers, start grabbing, set the output
format of the converters. -/
def startCameras (w : World) : Run Unit := do
  call w (.getSerialNumber .A)
  emit (.coutUsingDevice .A (w.serial .A))
  call w (.getSerialNumber .B)
  emit (.coutUsingDevice .B (w.serial .B))
  call w (.getSerialNumber .C)
  emit (.coutUsingDevice .C (w.serial .C))
  call w (.startGrabbing .A)
  call w (.startGrabbing .B)
  call w (.startGrabbing .C)
  call w (.setOutputPixelFormat .A)
  call w (.setOutputPixelFormat .B)
  call w (.setOutputPixelFormat .C)

/-- Lines 99-141: the three video writers.  The order in which C++ evaluates
the arguments of one `SetParameter` call is not fixed; width is read first
here. -/
def setupRecorders (w : World) : Run Unit := do
  call w (.nodeParameter .A "Width")
  call w (.nodeParameter .A "Height")
  call w (.nodeParameter .A "PixelFormat")
  let pf ← callVal w (.nodeGetValue .A "PixelFormat" 0) (w.nodeValue .A "PixelFormat" 0)
  let pixelType ← callVal w (.pixelTypeFromNodeValue pf) (w.pixelTypeOf pf)
  let wA ← callVal w (.nodeGetValue .A "Width" 0) (w.nodeValue .A "Width" 0)
  let hA ← callVal w (.nodeGetValue .A "Height" 0) (w.nodeValue .A "Height" 0)
  call w (.writerSetParameter .A (toUInt32 wA) (toUInt32 hA) pixelType 20 90)
  let wB ← callVal w (.nodeGetValue .A "Width" 1) (w.nodeValue .A "Width" 1)
  let hB ← callVal w (.nodeGetValue .A "Height" 1) (w.nodeValue .A "Height" 1)
  call w (.writerSetParameter .B (toUInt32 wB) (toUInt32 hB) pixelType 20 90)
  let wC ← callVal w (.nodeGetValue .A "Width" 2) (w.nodeValue .A "Width" 2)
  let hC ← callVal w (.nodeGetValue .A "Height" 2) (w.nodeValue .A "Height" 2)
  call w (.writerSetParameter .C (toUInt32 wC) (toUInt32 hC) pixelType 20 90)
  call w (.writerOpen .A "AAAA.mp4")
  call w (.writerOpen .B "BBBB.mp4")
  call w (.writerOpen .C "CCCC.mp4")

/-- Lines 48-141: everything in the `try` block before the loop. -/
def startup (w : World) : Run Unit := do
  enumerate w
  attachCameras w
  startCameras w
  setupRecorders w

/-- Lines 149-151: the three `RetrieveResult` calls. -/
def retrieveAll (w : World) (k : Nat) : Run (GrabResult × GrabResult × GrabResult) := do
  let a ← retrieveResult w .A k 5000
  let b ← retrieveResult w .B k 5000
  let c ← retrieveResult w .C k 5000
  return (a, b, c)

/-- Lines 164-183 for one camera, without the extra `Add` of camera A:
convert, wrap into a `cv::Mat`, halve, show. -/
def display (w : World) (c : Cam) (window : String) (k : Nat) (r : GrabResult) : Run Unit := do
  call w (.convert c k r)
  call w (.matWrap c k r.height r.width)
  call w (.resize c k)
  call w (.imshow window c k)

/-- Lines 155-191: the `if`/`else` on the three grab results. -/
def process (w : World) (k : Nat) (r : GrabResult × GrabResult × GrabResult) : Run Control :=
  if r.1.succeeded && r.2.1.succeeded && r.2.2.succeeded then do
    call w (.writerAdd .A k 0 r.1)
    call w (.writerAdd .B k 0 r.2.1)
    call w (.writerAdd .C k 0 r.2.2)
    call w (.convert .A k r.1)
    call w (.matWrap .A k r.1.height r.1.width)
    call w (.writerAdd .A k 1 r.1)
    call w (.resize .A k)
    call w (.imshow "A" .A k)
    display w .B "B" k r.2.1
    display w .C "C" k r.2.2
    let key ← callVal w (.waitKey k 1) (w.key k)
    if toCharCode key = 'q'.toNat then return .breakKey else return .next
  else do
    emit (.coutError r.1.errorCode r.1.errorDescription)
    return .next

/-- Lines 149-191: the loop body. -/
def cycle (w : World) (k : Nat) : Run Control := do
  let r ← retrieveAll w k
  process w k r

/-- One pass through `while (Camera_A.IsGrabbing())`: the test of the
condition and, when it holds, the body. -/
def iteration (w : World) (k : Nat) : Run Control := do
  let g ← callVal w (.isGrabbing k) (w.grabbing k)
  if g then cycle w k else return .notGrabbing

/-- The function `main` of `record_3_camera_test.cpp`. -/
def main (w : World) (fuel : Nat) : MainRun :=
  program w (startup w) (iteration w) fuel

end Record

/-! ## `multi_grab_v1.cpp` -/

namespace Multi

/-- Lines 47-54: the device list and the guard on its size. -/
def enumerate (w : World) : Run Unit := do
  call w .getInstance
  let n ← callVal w .enumerateDevices w.deviceCount
  if n = 0 then Run.raise (.generic "No camera present.")

/-- Lines 55-67: buffer counts, then attach and open the four cameras. -/
def attachCameras (w : World) : Run Unit := do
  call w (.setMaxNumBuffer .A 4)
  call w (.setMaxNumBuffer .B 4)
  call w (.setMaxNumBuffer .C 4)
  call w (.setMaxNumBuffer .D 4)
  let d0 ← deviceAt w 0
  call w (.createDevice d0)
  call w (.attach .A d0)
  call w (.openCamera .A)
  let d1 ← deviceAt w 1
  call w (.createDevice d1)
  call w (.attach .B d1)
  call w (.openCamera .B)
  let d2 ← deviceAt w 2
  call w (.createDevice d2)
  call w (.attach .C d2)
  call w (.openCamera .C)
  let d3 ← deviceAt w 3
  call w (.createDevice d3)
  call w (.attach .D d3)
  call w (.openCamera .D)

/-- Lines 68-84: print the serial numbers, start grabbing, set the output
format of the converters. -/
def startCameras (w : World) : Run Unit := do
  call w (.getSerialNumber .A)
  emit (.coutUsingDevice .A (w.serial .A))
  call w (.getSerialNumber .B)
  emit (.coutUsingDevice .B (w.serial .B))
  call w (.getSerialNumber .C)
  emit (.coutUsingDevice .C (w.serial .C))
  call w (.getSerialNumber .D)
  emit (.coutUsingDevice .D (w.serial .D))
  call w (.startGrabbing .A)
  call w (.startGrabbing .B)
  call w (.startGrabbing .C)
  call w (.startGrabbing .D)
  call w (.setOutputPixelFormat .A)
  call w (.setOutputPixelFormat .B)
  call w (.setOutputPixelFormat .C)
  call w (.setOutputPixelFormat .D)

/-- Lines 47-88: everything in the `try` block before the loop. -/
def startup (w : World) : Run Unit := do
  enumerate w
  attachCameras w
  startCameras w

/-- Lines 93-96: the four `RetrieveResult` calls. -/
def retrieveAll (w : World) (k : Nat) :
    Run (GrabResult × GrabResult × GrabResult × GrabResult) := do
  let a ← retrieveResult w .A k 5000
  let b ← retrieveResult w .B k 5000
  let c ← retrieveResult w .C k 5000
  let d ← retrieveResult w .D k 5000
  return (a, b, c, d)

/-- Lines 103-121 for one camera: convert, wrap into a `cv::Mat`, halve,
show. -/
def display (w : World) (c : Cam) (window : String) (k : Nat) (r : GrabResult) : Run Unit := do
  call w (.convert c k r)
  call w (.matWrap c k r.height r.width)
  call w (.resize c k)
  call w (.imshow window c k)

/-- Lines 99-127: the `if`/`else` on the four grab results.  The value of
`cv::waitKey(1)` is not used. -/
def process (w : World) (k : Nat)
    (r : GrabResult × GrabResult × GrabResult × GrabResult) : Run Control :=
  if r.1.succeeded && r.2.1.succeeded && r.2.2.1.succeeded && r.2.2.2.succeeded then do
    display w .A "A" k r.1
    display w .B "B" k r.2.1
    display w .C "C" k r.2.2.1
    display w .D "D" k r.2.2.2
    let _ ← callVal w (.waitKey k 1) (w.key k)
    return .next
  else do
    emit (.coutError r.1.errorCode r.1.errorDescription)
    return .next

/-- Lines 93-127: the loop body. -/
def cycle (w : World) (k : Nat) : Run Control := do
  let r ← retrieveAll w k
  process w k r

/-- One pass through `while (Camera_A.IsGrabbing())`: the test of the
condition and, when it holds, the body. -/
def iteration (w : World) (k : Nat) : Run Control := do
  let g ← callVal w (.isGrabbing k) (w.grabbing k)
  if g then cycle w k else return .notGrabbing

/-- The function `main` of `multi_grab_v1.cpp`. -/
def main (w : World) (fuel : Nat) : MainRun :=
  program w (startup w) (iteration w) fuel

end Multi

/-! ## Sample worlds -/

/-- A successfully grabbed 1920 x 1200 frame. -/
def okFrame : GrabResult := ⟨true, 0, "", 1200, 1920⟩

/-- A frame whose grab failed, with error code 0xE1000014. -/
def badFrame : GrabResult := ⟨false, 3774873620, "Buffer was incompletely grabbed", 1200, 1920⟩

/-- Four cameras that deliver good frames; camera A stops grabbing after
three cycles; no call throws, no key is pressed, a newline waits on standard
input.  The node maps of the cameras differ. -/
def steady : World where
  throws := fun _ => none
  deviceCount := 4
  serial := fun c => match c with
    | .A => "40000001"
    | .B => "40000002"
    | .C => "40000003"
    | .D => "40000004"
  nodeValue := fun c node _ => match c, node with
    | .A, "Width" => 1920
    | .A, "Height" => 1200
    | .A, _ => 17301505
    | _, "Width" => 640
    | _, "Height" => 480
    | _, _ => 35127316
  pixelTypeOf := fun v => v.toNat
  grabbing := fun k => decide (k < 3)
  grab := fun _ _ => okFrame
  key := fun _ => -1
  stdin := ['\n']

/-- As `steady`, but the grab of camera B fails in cycle 0. -/
def bFails : World :=
  { steady with grab := fun c k => match c, k with
      | .B, 0 => badFrame
      | _, _ => okFrame }

/-- As `steady`, but camera A keeps grabbing and the retrieval of camera B
times out in cycle 42. -/
def timeoutAtB42 : World :=
  { steady with
    grabbing := fun _ => true
    throws := fun e => match e with
      | .retrieveResult .B 42 5000 => some (.generic "Grab timed out.")
      | _ => none }

/-- As `steady`, but the video writer of camera B fails to append in
cycle 0. -/
def diskFull : World :=
  { steady with throws := fun e => match e with
      | .writerAdd .B 0 0 _ => some (.generic "Failed to write: no space left on device.")
      | _ => none }

/-- As `steady`, but the key poll of cycle 0 returns the code of `q`. -/
def quitKey : World :=
  { steady with key := fun k => if k = 0 then 113 else -1 }

/-- As `steady`, but showing the frame of camera A in cycle 0 throws an
exception that is not a `GenericException`. -/
def displayFails : World :=
  { steady with throws := fun e => match e with
      | .imshow _ .A 0 => some (.other "cv::Exception: cannot open display")
      | _ => none }

/-- As `steady`, but only `d` devices are found. -/
def devicesFound (d : Nat) : World :=
  { steady with deviceCount := d }

/-! ## Observations on traces -/

/-- The calls that hand a frame to a consumer: recording, conversion and the
display chain. -/
def Event.isSink : Event → Bool
  | .writerAdd _ _ _ _ => true
  | .convert _ _ _ => true
  | .matWrap _ _ _ _ => true
  | .resize _ _ => true
  | .imshow _ _ _ => true
  | _ => false

/-- The `RetrieveResult` calls. -/
def Event.isRetrieve : Event → Bool
  | .retrieveResult _ _ _ => true
  | _ => false

/-- The `Add` calls on the video writer of camera `c`. -/
def Event.isAddOf (c : Cam) : Event → Bool
  | .writerAdd c1 _ _ _ => c1 == c
  | _ => false

/-- The `cv::imshow` calls. -/
def Event.isDisplay : Event → Bool
  | .imshow _ _ _ => true
  | _ => false

/-- The lines written to `cerr` by the handler. -/
def Event.isHandlerLine : Event → Bool
  | .cerrException _ => true
  | _ => false

/-- The calls that set up a video writer. -/
def Event.isRecorderSetup : Event → Bool
  | .writerSetParameter _ _ _ _ _ _ => true
  | .writerOpen _ _ => true
  | _ => false

/-- The calls of the `if` branch of the recording program, up to the key
poll, in program order. -/
def Record.fanOut (k : Nat) (r : GrabResult × GrabResult × GrabResult) : List Event :=
  [.writerAdd .A k 0 r.1, .writerAdd .B k 0 r.2.1, .writerAdd .C k 0 r.2.2,
   .convert .A k r.1, .matWrap .A k r.1.height r.1.width, .writerAdd .A k 1 r.1,
   .resize .A k, .imshow "A" .A k,
   .convert .B k r.2.1, .matWrap .B k r.2.1.height r.2.1.width, .resize .B k, .imshow "B" .B k,
   .convert .C k r.2.2, .matWrap .C k r.2.2.height r.2.2.width, .resize .C k, .imshow "C" .C k]

/-- The calls of the `if` branch of the display program, up to the key poll,
in program order. -/
def Multi.fanOut (k : Nat) (r : GrabResult × GrabResult × GrabResult × GrabResult) :
    List Event :=
  [.convert .A k r.1, .matWrap .A k r.1.height r.1.width, .resize .A k, .imshow "A" .A k,
   .convert .B k r.2.1, .matWrap .B k r.2.1.height r.2.1.width, .resize .B k, .imshow "B" .B k,
   .convert .C k r.2.2.1, .matWrap .C k r.2.2.1.height r.2.2.1.width, .resize .C k,
   .imshow "C" .C k,
   .convert .D k r.2.2.2, .matWrap .D k r.2.2.2.height r.2.2.2.width, .resize .D k,
   .imshow "D" .D k]

/-- The grab results of cycle `k` of the recording program. -/
def Record.grabs (w : World) (k : Nat) : GrabResult × GrabResult × GrabResult :=
  (w.grab .A k, w.grab .B k, w.grab .C k)

/-- The grab results of cycle `k` of the display program. -/
def Multi.grabs (w : World) (k : Nat) : GrabResult × GrabResult × GrabResult × GrabResult :=
  (w.grab .A k, w.grab .B k, w.grab .C k, w.grab .D k)

/-- The three `RetrieveResult` calls of cycle `k`, in program order. -/
def Record.retrievals (k : Nat) : List Event :=
  [.retrieveResult .A k 5000, .retrieveResult .B k 5000, .retrieveResult .C k 5000]

/-- The four `RetrieveResult` calls of cycle `k`, in program order. -/
def Multi.retrievals (k : Nat) : List Event :=
  [.retrieveResult .A k 5000, .retrieveResult .B k 5000, .retrieveResult .C k 5000,
   .retrieveResult .D k 5000]

/-- The first `Add` call of each video writer in cycle `k`, in program
order (lines 158-160). -/
def Record.firstAdds (w : World) (k : Nat) : List Event :=
  [.writerAdd .A k 0 (w.grab .A k), .writerAdd .B k 0 (w.grab .B k),
   .writerAdd .C k 0 (w.grab .C k)]

@[simp] theorem Run.bind_def {α β : Type} (m : Run α) (f : α → Run β) :
    (m >>= f) = Run.bind m f := rfl

@[simp] theorem Run.pure_def {α : Type} (a : α) : (Pure.pure a : Run α) = Run.pure a := rfl

@[simp] theorem Run.bind_ok {α β : Type} (es : List Event) (a : α) (f : α → Run β) :
    Run.bind ⟨es, .ok a⟩ f = ⟨es ++ (f a).events, (f a).result⟩ := rfl

@[simp] theorem Run.bind_error {α β : Type} (es : List Event) (e : Abort) (f : α → Run β) :
    Run.bind (⟨es, .error e⟩ : Run α) f = ⟨es, .error e⟩ := rfl

@[simp] theorem Run.pure_events {α : Type} (a : α) : (Run.pure a).events = [] := rfl

@[simp] theorem Run.pure_result {α : Type} (a : α) : (Run.pure a).result = .ok a := rfl

@[simp] theorem Run.bind_emit {β : Type} (e : Event) (f : Unit → Run β) :
    Run.bind (emit e) f = ⟨e :: (f ()).events, (f ()).result⟩ := rfl

theorem Run.bind_assoc {α β γ : Type} (m : Run α) (f : α → Run β) (g : β → Run γ) :
    Run.bind (Run.bind m f) g = Run.bind m (fun a => Run.bind (f a) g) := by
  obtain ⟨es, r⟩ := m
  cases r with
  | error e => rfl
  | ok a =>
    simp only [Run.bind_ok]
    obtain ⟨es2, r2⟩ := f a
    cases r2 with
    | error e => rfl
    | ok b => simp [List.append_assoc]

theorem Run.bind_call_of_none {β : Type} (w : World) (e : Event) (f : Unit → Run β)
    (h : w.throws e = none) :
    Run.bind (call w e) f = ⟨e :: (f ()).events, (f ()).result⟩ := by
  simp [call, h]

theorem Run.bind_call_of_some {β : Type} (w : World) (e : Event) (f : Unit → Run β) (x : Exn)
    (h : w.throws e = some x) :
    Run.bind (call w e) f = ⟨[e], .error (.thrown x)⟩ := by
  simp [call, h]

theorem Run.bind_callVal_of_none {α β : Type} (w : World) (e : Event) (v : α) (f : α → Run β)
    (h : w.throws e = none) :
    Run.bind (callVal w e v) f = ⟨e :: (f v).events, (f v).result⟩ := by
  simp [callVal, h]

theorem call_of_none (w : World) (e : Event) (h : w.throws e = none) :
    call w e = ⟨[e], .ok ()⟩ := by
  simp [call, h]

theorem call_of_some (w : World) (e : Event) (x : Exn) (h : w.throws e = some x) :
    call w e = ⟨[e], .error (.thrown x)⟩ := by
  simp [call, h]

theorem Run.bind_call_result_ok {β : Type} (w : World) (e : Event) (f : Unit → Run β) (b : β) :
    (Run.bind (call w e) f).result = .ok b ↔ w.throws e = none ∧ (f ()).result = .ok b := by
  cases h : w.throws e <;> simp [call, h]

theorem Run.bind_callVal_result_ok {α β : Type} (w : World) (e : Event) (v : α)
    (f : α → Run β) (b : β) :
    (Run.bind (callVal w e v) f).result = .ok b ↔ w.throws e = none ∧ (f v).result = .ok b := by
  cases h : w.throws e <;> simp [callVal, h]

theorem call_result_ok (w : World) (e : Event) (u : Unit) :
    (call w e).result = .ok u ↔ w.throws e = none := by
  cases h : w.throws e <;> simp [call, h]

/-! ## The loop -/

/-- When the passes `k0 .. k0 + n - 1` all ask for another pass and pass
`k0 + n` does not, a loop with enough fuel consists of exactly these `n + 1`
passes. -/
theorem loop_of_stop (iter : Nat → Run Control) (n : Nat) :
    ∀ (fuel k0 : Nat), (∀ i, i < n → (iter (k0 + i)).result = .ok .next) →
      (iter (k0 + n)).result ≠ .ok .next → n < fuel →
      loop iter fuel k0 = (List.range' k0 n).map iter ++ [iter (k0 + n)] := by
  induction n with
  | zero =>
    intro fuel k0 _ hstop hfuel
    obtain ⟨f, rfl⟩ : ∃ f, fuel = f + 1 := ⟨fuel - 1, by omega⟩
    simp only [Nat.add_zero] at hstop
    unfold loop
    split
    · contradiction
    · simp
  | succ n ih =>
    intro fuel k0 hnext hstop hfuel
    obtain ⟨f, rfl⟩ : ∃ f, fuel = f + 1 := ⟨fuel - 1, by omega⟩
    have h0 : (iter k0).result = .ok .next := by simpa using hnext 0 (by omega)
    have hrest := ih f (k0 + 1)
      (fun i hi => by
        have := hnext (i + 1) (by omega)
        rwa [show k0 + 1 + i = k0 + (i + 1) by omega])
      (by rwa [show k0 + 1 + n = k0 + (n + 1) by omega]) (by omega)
    unfold loop
    simp only [h0]
    rw [hrest]
    simp [List.range'_succ, show k0 + 1 + n = k0 + (n + 1) by omega]

/-- Every pass of an unrolled loop is the loop body at its index, and every
pass but the last asked for another pass. -/
theorem loop_get (iter : Nat → Run Control) :
    ∀ (fuel k0 i : Nat) (r : Run Control), (loop iter fuel k0)[i]? = some r →
      r = iter (k0 + i) ∧ (i + 1 < (loop iter fuel k0).length → r.result = .ok .next) := by
  intro fuel
  induction fuel with
  | zero => intro k0 i r h; simp [loop] at h
  | succ f ih =>
    intro k0 i r h
    unfold loop at h ⊢
    split at h
    · rename_i hres
      cases i with
      | zero =>
        simp at h
        subst h
        simp [hres]
      | succ j =>
        simp at h
        obtain ⟨h1, h2⟩ := ih (k0 + 1) j r h
        refine ⟨by rw [h1]; congr 1; omega, fun hlen => h2 ?_⟩
        simpa using hlen
    · cases i with
      | zero =>
        simp at h
        subst h
        simp
      | succ j => simp at h

theorem loopEnd_snoc (ps : List (Run Control)) (r : Run Control) :
    loopEnd (ps ++ [r]) =
      match r.result with
      | .ok .next => none
      | .ok _ => some (.ok ())
      | .error a => some (.error a) := by
  simp [loopEnd]

theorem passEvents_snoc (ps : List (Run Control)) (r : Run Control) :
    passEvents (ps ++ [r]) = passEvents ps ++ r.events := by
  simp [passEvents]

/-! ## The program around the loop -/

theorem tryBlock_of_stop (startup : Run Unit) (iter : Nat → Run Control) (fuel k : Nat)
    (hs : ∃ u, startup.result = .ok u) (hk : Reaches iter k)
    (hstop : (iter k).result ≠ .ok .next) (hfuel : k < fuel) :
    tryBlock startup iter fuel =
      ⟨startup.events ++ (passEvents ((List.range k).map iter) ++ (iter k).events),
        match (iter k).result with
        | .ok .next => none
        | .ok _ => some (.ok ())
        | .error a => some (.error a)⟩ := by
  obtain ⟨u, hs⟩ := hs
  have hl := loop_of_stop iter k fuel 0 (fun i hi => by simpa using hk i hi)
    (by simpa using hstop) hfuel
  simp only [Nat.zero_add, ← List.range_eq_range'] at hl
  simp only [tryBlock, hs, hl, loopEnd_snoc, passEvents_snoc]

theorem epilogue_of_newline (w : World) (es : List Event) (code : Int)
    (hin : '\n' ∈ w.stdin) (ht : w.throws .pylonTerminate = none) :
    epilogue w es code = ⟨es ++ [.cerrPressEnter, .pylonTerminate], .returned code⟩ := by
  simp [epilogue, hin, ht]

/-- A `GenericException` thrown in pass `k` ends the loop there and takes the
program through the handler. -/
theorem program_of_generic (w : World) (startup : Run Unit) (iter : Nat → Run Control)
    (fuel k : Nat) (d : String)
    (hi : w.throws .pylonInitialize = none) (hs : ∃ u, startup.result = .ok u)
    (hk : Reaches iter k) (hthrow : (iter k).result = .error (.thrown (.generic d)))
    (hfuel : k < fuel) :
    program w startup iter fuel =
      epilogue w (eventsThrough startup iter k ++ [.cerrException d]) 1 := by
  have ht := tryBlock_of_stop startup iter fuel k hs hk (by simp [hthrow]) hfuel
  simp only [hthrow] at ht
  simp only [program, hi, ht, eventsThrough]

/-- A pass that leaves the loop without an exception takes the program to
the code after the `catch` with `exitCode` still 0. -/
theorem program_of_exit (w : World) (startup : Run Unit) (iter : Nat → Run Control)
    (fuel k : Nat) (c : Control)
    (hi : w.throws .pylonInitialize = none) (hs : ∃ u, startup.result = .ok u)
    (hk : Reaches iter k) (hexit : (iter k).result = .ok c) (hc : c ≠ .next)
    (hfuel : k < fuel) :
    program w startup iter fuel = epilogue w (eventsThrough startup iter k) 0 := by
  have ht := tryBlock_of_stop startup iter fuel k hs hk (by simp [hexit, hc]) hfuel
  simp only [hexit] at ht
  cases c with
  | next => exact absurd rfl hc
  | notGrabbing => simp only [program, hi, ht, eventsThrough]
  | breakKey => simp only [program, hi, ht, eventsThrough]

/-! ## The loop body -/

theorem record_retrieveAll_of_ok (w : World) (k : Nat)
    (h : ∃ r, (Record.retrieveAll w k).result = .ok r) :
    Record.retrieveAll w k =
      ⟨[.retrieveResult .A k 5000, .retrieveResult .B k 5000, .retrieveResult .C k 5000],
        .ok (w.grab .A k, w.grab .B k, w.grab .C k)⟩ := by
  obtain ⟨r, h⟩ := h
  unfold Record.retrieveAll retrieveResult callVal at *
  cases hA : w.throws (.retrieveResult .A k 5000) <;>
  cases hB : w.throws (.retrieveResult .B k 5000) <;>
  cases hC : w.throws (.retrieveResult .C k 5000) <;>
  simp_all

theorem multi_retrieveAll_of_ok (w : World) (k : Nat)
    (h : ∃ r, (Multi.retrieveAll w k).result = .ok r) :
    Multi.retrieveAll w k =
      ⟨[.retrieveResult .A k 5000, .retrieveResult .B k 5000, .retrieveResult .C k 5000,
          .retrieveResult .D k 5000],
        .ok (w.grab .A k, w.grab .B k, w.grab .C k, w.grab .D k)⟩ := by
  obtain ⟨r, h⟩ := h
  unfold Multi.retrieveAll retrieveResult callVal at *
  cases hA : w.throws (.retrieveResult .A k 5000) <;>
  cases hB : w.throws (.retrieveResult .B k 5000) <;>
  cases hC : w.throws (.retrieveResult .C k 5000) <;>
  cases hD : w.throws (.retrieveResult .D k 5000) <;>
  simp_all

/-- In a cycle whose grab results are not all successful, the body writes
the error line of camera A and nothing else. -/
theorem record_process_of_failed (w : World) (k : Nat)
    (r : GrabResult × GrabResult × GrabResult)
    (h : (r.1.succeeded && r.2.1.succeeded && r.2.2.succeeded) = false) :
    Record.process w k r = ⟨[.coutError r.1.errorCode r.1.errorDescription], .ok .next⟩ := by
  simp [Record.process, h, Run.pure]

theorem multi_process_of_failed (w : World) (k : Nat)
    (r : GrabResult × GrabResult × GrabResult × GrabResult)
    (h : (r.1.succeeded && r.2.1.succeeded && r.2.2.1.succeeded && r.2.2.2.succeeded) = false) :
    Multi.process w k r = ⟨[.coutError r.1.errorCode r.1.errorDescription], .ok .next⟩ := by
  simp [Multi.process, h, Run.pure]

theorem record_process_of_ok (w : World) (k : Nat) (r : GrabResult × GrabResult × GrabResult)
    (c : Control)
    (h : (r.1.succeeded && r.2.1.succeeded && r.2.2.succeeded) = true)
    (hc : (Record.process w k r).result = .ok c) :
    (Record.process w k r).events = Record.fanOut k r ++ [.waitKey k 1] ∧
      c = (if toCharCode (w.key k) = 'q'.toNat then .breakKey else .next) := by
  simp only [Record.process, h, if_true, Record.display, Run.bind_def, Run.bind_assoc] at hc ⊢
  simp only [Run.bind_call_result_ok, Run.bind_callVal_result_ok, call_result_ok] at hc
  obtain ⟨h1, h2, h3, h4, h5, h6, h7, h8, h9, h10, h11, h12, h13, h14, h15, h16, h17, h18⟩ := hc
  simp only [Run.bind_call_of_none, Run.bind_callVal_of_none, h1, h2, h3, h4, h5, h6, h7, h8,
    h9, h10, h11, h12, h13, h14, h15, h16, h17, Record.fanOut]
  constructor
  · split <;> simp
  · split at h18 <;> simp_all

theorem multi_process_of_ok (w : World) (k : Nat)
    (r : GrabResult × GrabResult × GrabResult × GrabResult) (c : Control)
    (h : (r.1.succeeded && r.2.1.succeeded && r.2.2.1.succeeded && r.2.2.2.succeeded) = true)
    (hc : (Multi.process w k r).result = .ok c) :
    (Multi.process w k r).events = Multi.fanOut k r ++ [.waitKey k 1] ∧ c = .next := by
  simp only [Multi.process, h, if_true, Multi.display, Run.bind_def, Run.bind_assoc] at hc ⊢
  simp only [Run.bind_call_result_ok, Run.bind_callVal_result_ok, call_result_ok] at hc
  obtain ⟨h1, h2, h3, h4, h5, h6, h7, h8, h9, h10, h11, h12, h13, h14, h15, h16, h17, h18⟩ := hc
  simp only [Run.bind_call_of_none, Run.bind_callVal_of_none, h1, h2, h3, h4, h5, h6, h7, h8,
    h9, h10, h11, h12, h13, h14, h15, h16, h17, Multi.fanOut]
  constructor
  · simp
  · simp_all

theorem record_cycle_of_retrieved (w : World) (k : Nat)
    (h : ∃ r, (Record.retrieveAll w k).result = .ok r) :
    Record.cycle w k =
      ⟨Record.retrievals k ++ (Record.process w k (Record.grabs w k)).events,
        (Record.process w k (Record.grabs w k)).result⟩ := by
  simp only [Record.cycle, Run.bind_def, record_retrieveAll_of_ok w k h, Run.bind_ok]
  rfl

theorem multi_cycle_of_retrieved (w : World) (k : Nat)
    (h : ∃ r, (Multi.retrieveAll w k).result = .ok r) :
    Multi.cycle w k =
      ⟨Multi.retrievals k ++ (Multi.process w k (Multi.grabs w k)).events,
        (Multi.process w k (Multi.grabs w k)).result⟩ := by
  simp only [Multi.cycle, Run.bind_def, multi_retrieveAll_of_ok w k h, Run.bind_ok]
  rfl

theorem Run.bind_result_ok {α β : Type} (m : Run α) (f : α → Run β) (b : β)
    (h : (Run.bind m f).result = .ok b) : ∃ a, m.result = .ok a ∧ (f a).result = .ok b := by
  obtain ⟨es, r⟩ := m
  cases r with
  | error e => simp [Run.bind] at h
  | ok a => exact ⟨a, rfl, by simpa using h⟩

theorem record_iteration_of_grabbing (w : World) (k : Nat)
    (h1 : w.throws (.isGrabbing k) = none) (h2 : w.grabbing k = true) :
    Record.iteration w k =
      ⟨.isGrabbing k :: (Record.cycle w k).events, (Record.cycle w k).result⟩ := by
  simp [Record.iteration, Run.bind_callVal_of_none, h1, h2]

theorem multi_iteration_of_grabbing (w : World) (k : Nat)
    (h1 : w.throws (.isGrabbing k) = none) (h2 : w.grabbing k = true) :
    Multi.iteration w k =
      ⟨.isGrabbing k :: (Multi.cycle w k).events, (Multi.cycle w k).result⟩ := by
  simp [Multi.iteration, Run.bind_callVal_of_none, h1, h2]

theorem multi_iteration_of_completed (w : World) (k : Nat) (c : Control)
    (h : (Multi.iteration w k).result = .ok c) (hc : c ≠ .notGrabbing) :
    w.throws (.isGrabbing k) = none ∧ w.grabbing k = true ∧
      (Multi.cycle w k).result = .ok c := by
  simp only [Multi.iteration, Run.bind_def, Run.bind_callVal_result_ok] at h
  obtain ⟨h1, h2⟩ := h
  cases hg : w.grabbing k with
  | false =>
    simp [hg, Run.pure] at h2
    exact absurd h2.symm hc
  | true => exact ⟨h1, rfl, by simpa [hg] using h2⟩

theorem loop_mem (iter : Nat → Run Control) (fuel k0 : Nat) (r : Run Control)
    (h : r ∈ loop iter fuel k0) : ∃ i, r = iter (k0 + i) := by
  obtain ⟨i, hi⟩ := List.mem_iff_getElem?.1 h
  exact ⟨i, (loop_get iter fuel k0 i r hi).1⟩

/-- When a pass asks for another one, the loop goes on with the next index. -/
theorem loop_succ_of_next (iter : Nat → Run Control) (fuel k : Nat)
    (h : (iter k).result = .ok .next) :
    loop iter (fuel + 1) k = iter k :: loop iter fuel (k + 1) := by
  rw [loop]
  simp only [h]

theorem Run.bind_of_error {α β : Type} (m : Run α) (f : α → Run β) (a : Abort)
    (h : m.result = .error a) : Run.bind m f = ⟨m.events, .error a⟩ := by
  obtain ⟨es, r⟩ := m
  simp only at h
  subst h
  rfl

theorem record_retrieveAll_events (w : World) (k : Nat) :
    ∀ e, e ∈ (Record.retrieveAll w k).events → e.isRetrieve = true := by
  unfold Record.retrieveAll retrieveResult callVal
  cases hA : w.throws (.retrieveResult .A k 5000) <;>
  cases hB : w.throws (.retrieveResult .B k 5000) <;>
  cases hC : w.throws (.retrieveResult .C k 5000) <;>
  simp [Event.isRetrieve, Run.pure]

theorem multi_retrieveAll_events (w : World) (k : Nat) :
    ∀ e, e ∈ (Multi.retrieveAll w k).events → e.isRetrieve = true := by
  unfold Multi.retrieveAll retrieveResult callVal
  cases hA : w.throws (.retrieveResult .A k 5000) <;>
  cases hB : w.throws (.retrieveResult .B k 5000) <;>
  cases hC : w.throws (.retrieveResult .C k 5000) <;>
  cases hD : w.throws (.retrieveResult .D k 5000) <;>
  simp [Event.isRetrieve, Run.pure]

/-- A pass in which a retrieval throws: the loop condition, the retrievals
up to the one that threw, and nothing else. -/
theorem record_iteration_of_retrieve_error (w : World) (k : Nat) (a : Abort)
    (h1 : w.throws (.isGrabbing k) = none) (h2 : w.grabbing k = true)
    (h : (Record.retrieveAll w k).result = .error a) :
    Record.iteration w k = ⟨.isGrabbing k :: (Record.retrieveAll w k).events, .error a⟩ := by
  rw [record_iteration_of_grabbing w k h1 h2]
  simp only [Record.cycle, Run.bind_def, Run.bind_of_error _ _ a h]

theorem multi_iteration_of_retrieve_error (w : World) (k : Nat) (a : Abort)
    (h1 : w.throws (.isGrabbing k) = none) (h2 : w.grabbing k = true)
    (h : (Multi.retrieveAll w k).result = .error a) :
    Multi.iteration w k = ⟨.isGrabbing k :: (Multi.retrieveAll w k).events, .error a⟩ := by
  rw [multi_iteration_of_grabbing w k h1 h2]
  simp only [Multi.cycle, Run.bind_def, Run.bind_of_error _ _ a h]

theorem loop_length_of_stop (iter : Nat → Run Control) (fuel k : Nat) (hk : Reaches iter k)
    (hstop : (iter k).result ≠ .ok .next) (hfuel : k < fuel) :
    loop iter fuel 0 = (List.range k).map iter ++ [iter k] := by
  have hl := loop_of_stop iter k fuel 0 (fun i hi => by simpa using hk i hi)
    (by simpa using hstop) hfuel
  simpa only [Nat.zero_add, ← List.range_eq_range'] using hl

/-- The display program never leaves the loop through a `break`. -/
theorem multi_cycle_result (w : World) (k : Nat) (c : Control)
    (h : (Multi.cycle w k).result = .ok c) : c = .next := by
  obtain ⟨r, hr, _⟩ := Run.bind_result_ok _ _ _ (by simpa [Multi.cycle] using h)
  rw [multi_cycle_of_retrieved w k ⟨r, hr⟩] at h
  by_cases hs : ((Multi.grabs w k).1.succeeded && (Multi.grabs w k).2.1.succeeded &&
      (Multi.grabs w k).2.2.1.succeeded && (Multi.grabs w k).2.2.2.succeeded) = true
  · exact (multi_process_of_ok w k _ c hs h).2
  · rw [multi_process_of_failed w k _ (by simpa using hs)] at h
    simpa using h.symm

/-! ## The startup code -/

theorem Run.bind_deviceAt_result_ok {β : Type} (w : World) (i : Nat) (f : Nat → Run β) (b : β) :
    (Run.bind (deviceAt w i) f).result = .ok b ↔ i < w.deviceCount ∧ (f i).result = .ok b := by
  by_cases h : i < w.deviceCount <;> simp [deviceAt, h]

theorem Run.raise_bind {α β : Type} (e : Exn) (f : α → Run β) :
    Run.bind (Run.raise e) f = ⟨[], .error (.thrown e)⟩ := by
  simp [Run.raise]

theorem record_enumerate_of_ok (w : World) (h : ∃ u, (Record.enumerate w).result = .ok u) :
    (Record.enumerate w).events = [.getInstance, .enumerateDevices] := by
  obtain ⟨u, h⟩ := h
  simp only [Record.enumerate, Run.bind_def, Run.pure_def] at h ⊢
  by_cases hd : w.deviceCount = 0
  · simp [Run.bind_call_result_ok, Run.bind_callVal_result_ok, hd, Run.raise] at h
  simp only [Run.bind_call_result_ok, Run.bind_callVal_result_ok, hd, if_false] at h
  simp [call, callVal, Run.pure, h, hd]

theorem record_attachCameras_of_ok (w : World)
    (h : ∃ u, (Record.attachCameras w).result = .ok u) :
    (Record.attachCameras w).events =
      [.setMaxNumBuffer .A 4, .setMaxNumBuffer .B 4, .setMaxNumBuffer .C 4,
        .setMaxNumBuffer .D 4,
        .deviceAt 0, .createDevice 0, .attach .A 0, .openCamera .A,
        .deviceAt 1, .createDevice 1, .attach .B 1, .openCamera .B,
        .deviceAt 2, .createDevice 2, .attach .C 2, .openCamera .C] := by
  obtain ⟨u, h⟩ := h
  simp only [Record.attachCameras, Run.bind_def] at h ⊢
  simp only [Run.bind_call_result_ok, call_result_ok, Run.bind_deviceAt_result_ok] at h
  simp [call, deviceAt, h]

theorem record_startCameras_of_ok (w : World)
    (h : ∃ u, (Record.startCameras w).result = .ok u) :
    (Record.startCameras w).events =
      [.getSerialNumber .A, .coutUsingDevice .A (w.serial .A),
        .getSerialNumber .B, .coutUsingDevice .B (w.serial .B),
        .getSerialNumber .C, .coutUsingDevice .C (w.serial .C),
        .startGrabbing .A, .startGrabbing .B, .startGrabbing .C,
        .setOutputPixelFormat .A, .setOutputPixelFormat .B, .setOutputPixelFormat .C] := by
  obtain ⟨u, h⟩ := h
  simp only [Record.startCameras, Run.bind_def] at h ⊢
  simp only [Run.bind_call_result_ok, call_result_ok, Run.bind_emit] at h
  simp [call, emit, h]

/-- The calls that set up the video writers when they all return. -/
theorem record_setupRecorders_of_ok (w : World)
    (h : ∃ u, (Record.setupRecorders w).result = .ok u) :
    (Record.setupRecorders w).events =
      [.nodeParameter .A "Width", .nodeParameter .A "Height", .nodeParameter .A "PixelFormat",
        .nodeGetValue .A "PixelFormat" 0,
        .pixelTypeFromNodeValue (w.nodeValue .A "PixelFormat" 0),
        .nodeGetValue .A "Width" 0, .nodeGetValue .A "Height" 0,
        .writerSetParameter .A (toUInt32 (w.nodeValue .A "Width" 0))
          (toUInt32 (w.nodeValue .A "Height" 0))
          (w.pixelTypeOf (w.nodeValue .A "PixelFormat" 0)) 20 90,
        .nodeGetValue .A "Width" 1, .nodeGetValue .A "Height" 1,
        .writerSetParameter .B (toUInt32 (w.nodeValue .A "Width" 1))
          (toUInt32 (w.nodeValue .A "Height" 1))
          (w.pixelTypeOf (w.nodeValue .A "PixelFormat" 0)) 20 90,
        .nodeGetValue .A "Width" 2, .nodeGetValue .A "Height" 2,
        .writerSetParameter .C (toUInt32 (w.nodeValue .A "Width" 2))
          (toUInt32 (w.nodeValue .A "Height" 2))
          (w.pixelTypeOf (w.nodeValue .A "PixelFormat" 0)) 20 90,
        .writerOpen .A "AAAA.mp4", .writerOpen .B "BBBB.mp4", .writerOpen .C "CCCC.mp4"] := by
  obtain ⟨u, h⟩ := h
  simp only [Record.setupRecorders, Run.bind_def] at h ⊢
  simp only [Run.bind_call_result_ok, Run.bind_callVal_result_ok, call_result_ok] at h
  simp [call, callVal, h]

theorem Run.bind_events_of_ok {α β : Type} (m : Run α) (f : α → Run β) (a : α)
    (h : m.result = .ok a) : (Run.bind m f).events = m.events ++ (f a).events := by
  obtain ⟨es, r⟩ := m
  simp only at h
  subst h
  rfl

/-- The startup code of the recording program runs through only when each
of its four parts does, and then its calls are theirs, in order. -/
theorem record_startup_of_ok (w : World) (h : ∃ u, (Record.startup w).result = .ok u) :
    (Record.startup w).events =
      (Record.enumerate w).events ++ ((Record.attachCameras w).events ++
        ((Record.startCameras w).events ++ (Record.setupRecorders w).events)) ∧
      (∃ u, (Record.enumerate w).result = .ok u) ∧
      (∃ u, (Record.attachCameras w).result = .ok u) ∧
      (∃ u, (Record.startCameras w).result = .ok u) ∧
      (∃ u, (Record.setupRecorders w).result = .ok u) := by
  obtain ⟨u, h⟩ := h
  simp only [Record.startup, Run.bind_def] at h ⊢
  obtain ⟨u1, h1, h⟩ := Run.bind_result_ok _ _ _ h
  obtain ⟨u2, h2, h⟩ := Run.bind_result_ok _ _ _ h
  obtain ⟨u3, h3, h⟩ := Run.bind_result_ok _ _ _ h
  rw [Run.bind_events_of_ok _ _ u1 h1, Run.bind_events_of_ok _ _ u2 h2,
    Run.bind_events_of_ok _ _ u3 h3]
  exact ⟨rfl, ⟨u1, h1⟩, ⟨u2, h2⟩, ⟨u3, h3⟩, ⟨u, h⟩⟩

/-- The trace of `main` starts with `PylonInitialize` and the startup
code. -/
theorem program_events_of_started (w : World) (startup : Run Unit) (iter : Nat → Run Control)
    (fuel : Nat) (hi : w.throws .pylonInitialize = none) (hs : ∃ u, startup.result = .ok u) :
    ∃ rest, (program w startup iter fuel).events = .pylonInitialize :: (startup.events ++ rest) := by
  obtain ⟨u, hs⟩ := hs
  simp only [program, hi, tryBlock, hs]
  cases hl : loopEnd (loop iter fuel 0) with
  | none => exact ⟨_, rfl⟩
  | some r =>
    cases r with
    | ok v =>
      simp only [epilogue]
      split
      · split <;> exact ⟨_, by simp [List.append_assoc]; rfl⟩
      · exact ⟨_, by simp [List.append_assoc]; rfl⟩
    | error a =>
      cases a with
      | outOfRange i => exact ⟨_, rfl⟩
      | thrown x =>
        cases x with
        | other s => exact ⟨_, rfl⟩
        | generic d =>
          simp only [epilogue]
          split
          · split <;> exact ⟨_, by simp [List.append_assoc]; rfl⟩
          · exact ⟨_, by simp [List.append_assoc]; rfl⟩

/-- When `main` returns, either the handler ran and the value is 1, or the
`try` block ended normally and the value is 0. -/
theorem program_of_returned (w : World) (startup : Run Unit) (iter : Nat → Run Control)
    (fuel : Nat) (code : Int) (h : (program w startup iter fuel).outcome = .returned code) :
    (code = 1 ∧ ∃ d, (tryBlock startup iter fuel).result = some (.error (.thrown (.generic d))) ∧
        Event.cerrException d ∈ (program w startup iter fuel).events) ∨
      (code = 0 ∧ (tryBlock startup iter fuel).result = some (.ok ())) := by
  unfold program at h ⊢
  cases hi : w.throws .pylonInitialize with
  | some x => simp [hi] at h
  | none =>
    simp only [hi] at h ⊢
    cases ht : (tryBlock startup iter fuel).result with
    | none => simp [ht] at h
    | some r =>
      cases r with
      | ok v =>
        right
        simp only [ht, epilogue] at h
        split at h
        · split at h
          · simp at h
            exact ⟨h.symm, rfl⟩
          · simp at h
        · simp at h
      | error a =>
        cases a with
        | outOfRange i => simp [ht] at h
        | thrown x =>
          cases x with
          | other s => simp [ht] at h
          | generic d =>
            left
            simp only [ht, epilogue] at h ⊢
            split at h
            · split at h
              · simp at h
                refine ⟨h.symm, d, rfl, ?_⟩
                simp_all
              · simp at h
            · simp at h

/-- A `try` block that ends normally ran its startup code and left the loop
at the loop condition or at the `break`. -/
theorem tryBlock_of_ok (startup : Run Unit) (iter : Nat → Run Control) (fuel : Nat)
    (h : (tryBlock startup iter fuel).result = some (.ok ())) :
    (∃ u, startup.result = .ok u) ∧
      ∃ r, (loop iter fuel 0).getLast? = some r ∧
        (r.result = .ok .notGrabbing ∨ r.result = .ok .breakKey) := by
  unfold tryBlock at h
  cases hs : startup.result with
  | error a => simp [hs] at h
  | ok u =>
    refine ⟨⟨u, rfl⟩, ?_⟩
    simp only [hs, loopEnd] at h
    cases hl : (loop iter fuel 0).getLast? with
    | none => simp [hl] at h
    | some r =>
      refine ⟨r, rfl, ?_⟩
      simp only [hl] at h
      cases hr : r.result with
      | error a => simp [hr] at h
      | ok c =>
        cases c with
        | next => simp [hr] at h
        | notGrabbing => exact Or.inl rfl
        | breakKey => exact Or.inr rfl

theorem multi_iteration_result_ne_break (w : World) (k : Nat) :
    (Multi.iteration w k).result ≠ .ok .breakKey := by
  intro h
  obtain ⟨_, _, hc⟩ := multi_iteration_of_completed w k .breakKey h (by simp)
  have := multi_cycle_result w k .breakKey hc
  simp at this

/-- When the run gets past `PylonInitialize`, the prompt reads a newline and
`PylonTerminate` returns, `main` returns: 1 when the startup code or a pass
of the loop throws a `GenericException`, 0 when a pass leaves the loop. -/
theorem program_returns (w : World) (startup : Run Unit) (iter : Nat → Run Control)
    (fuel k : Nat) (hi : w.throws .pylonInitialize = none) (hin : '\n' ∈ w.stdin)
    (ht : w.throws .pylonTerminate = none) :
    (∀ d, startup.result = .error (.thrown (.generic d)) →
      (program w startup iter fuel).outcome = .returned 1) ∧
    ((∃ u, startup.result = .ok u) → Reaches iter k → k < fuel →
      (∀ c, (iter k).result = .ok c → c ≠ .next →
        (program w startup iter fuel).outcome = .returned 0) ∧
      (∀ d, (iter k).result = .error (.thrown (.generic d)) →
        (program w startup iter fuel).outcome = .returned 1)) := by
  constructor
  · intro d hs
    simp only [program, hi, tryBlock, hs]
    rw [epilogue_of_newline w _ 1 hin ht]
  · intro hs hk hfuel
    constructor
    · intro c hc hne
      rw [program_of_exit w startup iter fuel k c hi hs hk hc hne hfuel,
        epilogue_of_newline w _ 0 hin ht]
    · intro d hd
      rw [program_of_generic w startup iter fuel k d hi hs hk hd hfuel,
        epilogue_of_newline w _ 1 hin ht]

/-! ## Straight-line sequences of calls -/

/-- An exception that is not a `GenericException` passes the handler: `main`
does not return. -/
theorem program_of_other (w : World) (startup : Run Unit) (iter : Nat → Run Control)
    (fuel : Nat) (x : String) (hi : w.throws .pylonInitialize = none)
    (ht : (tryBlock startup iter fuel).result = some (.error (.thrown (.other x)))) :
    program w startup iter fuel =
      ⟨.pylonInitialize :: (tryBlock startup iter fuel).events, .terminated (.other x)⟩ := by
  simp only [program, hi, ht]

theorem program_of_init_throws (w : World) (startup : Run Unit) (iter : Nat → Run Control)
    (fuel : Nat) (x : Exn) (hi : w.throws .pylonInitialize = some x) :
    program w startup iter fuel = ⟨[.pylonInitialize], .terminated x⟩ := by
  simp only [program, hi]

/-! ## The claims -/

/-- C2, as the code has it: a retrieval that throws a `GenericException`
(the timeout of `TimeoutHandling_ThrowException`) in a pass `k` that the loop
reaches ends the run.  Pass `k` makes no sink call, it is the last pass of
the loop, the handler prints the description, and once the prompt has read a
newline and `PylonTerminate` has returned, `main` returns 1. -/
theorem c2_timeout_is_fatal (w : World) (k fuel : Nat) (d : String)
    (hinit : w.throws .pylonInitialize = none) (hk : k < fuel)
    (hg : w.throws (.isGrabbing k) = none ∧ w.grabbing k = true) :
    ((∃ u, (Record.startup w).result = .ok u) → Reaches (Record.iteration w) k →
      (Record.retrieveAll w k).result = .error (.thrown (.generic d)) →
      (∀ e, e ∈ (Record.iteration w k).events → e.isSink = false) ∧
        loop (Record.iteration w) fuel 0 =
          (List.range k).map (Record.iteration w) ++ [Record.iteration w k] ∧
        Record.main w fuel =
          epilogue w (eventsThrough (Record.startup w) (Record.iteration w) k ++
            [.cerrException d]) 1 ∧
        ('\n' ∈ w.stdin → w.throws .pylonTerminate = none →
          (Record.main w fuel).outcome = .returned 1)) ∧
    ((∃ u, (Multi.startup w).result = .ok u) → Reaches (Multi.iteration w) k →
      (Multi.retrieveAll w k).result = .error (.thrown (.generic d)) →
      (∀ e, e ∈ (Multi.iteration w k).events → e.isSink = false) ∧
        loop (Multi.iteration w) fuel 0 =
          (List.range k).map (Multi.iteration w) ++ [Multi.iteration w k] ∧
        Multi.main w fuel =
          epilogue w (eventsThrough (Multi.startup w) (Multi.iteration w) k ++
            [.cerrException d]) 1 ∧
        ('\n' ∈ w.stdin → w.throws .pylonTerminate = none →
          (Multi.main w fuel).outcome = .returned 1)) := by
  constructor
  · intro hs hreach hthrow
    have hit := record_iteration_of_retrieve_error w k _ hg.1 hg.2 hthrow
    have hres : (Record.iteration w k).result = .error (.thrown (.generic d)) := by rw [hit]
    have hmain := program_of_generic w (Record.startup w) (Record.iteration w) fuel k d
      hinit hs hreach hres hk
    refine ⟨?_, loop_length_of_stop _ fuel k hreach (by simp [hres]) hk, hmain, ?_⟩
    · intro e he
      rw [hit] at he
      simp only [List.mem_cons] at he
      rcases he with rfl | he
      · rfl
      · have := record_retrieveAll_events w k e he
        cases e <;> simp_all [Event.isRetrieve, Event.isSink]
    · intro hin ht
      show (program w _ _ fuel).outcome = _
      rw [hmain, epilogue_of_newline w _ 1 hin ht]
  · intro hs hreach hthrow
    have hit := multi_iteration_of_retrieve_error w k _ hg.1 hg.2 hthrow
    have hres : (Multi.iteration w k).result = .error (.thrown (.generic d)) := by rw [hit]
    have hmain := program_of_generic w (Multi.startup w) (Multi.iteration w) fuel k d
      hinit hs hreach hres hk
    refine ⟨?_, loop_length_of_stop _ fuel k hreach (by simp [hres]) hk, hmain, ?_⟩
    · intro e he
      rw [hit] at he
      simp only [List.mem_cons] at he
      rcases he with rfl | he
      · rfl
      · have := multi_retrieveAll_events w k e he
        cases e <;> simp_all [Event.isRetrieve, Event.isSink]
    · intro hin ht
      show (program w _ _ fuel).outcome = _
      rw [hmain, epilogue_of_newline w _ 1 hin ht]

/-- Witness of the corrected C2: camera B times out in cycle 42. -/
theorem c2_timeout_is_fatal_witness :
    Reaches (Record.iteration timeoutAtB42) 42 ∧
      (Record.retrieveAll timeoutAtB42 42).result =
        .error (.thrown (.generic "Grab timed out.")) ∧
      (Record.main timeoutAtB42 100).outcome = .returned 1 :=
  ⟨by decide, rfl,
    ((c2_timeout_is_fatal timeoutAtB42 42 100 "Grab timed out." rfl (by decide) ⟨rfl, rfl⟩).1
      ⟨(), rfl⟩ (by decide) rfl).2.2.2 (by decide) rfl⟩

set_option maxRecDepth 100000 in
/-- C2 as stated fails.  Three cameras, camera B times out in cycle 42 (the
retrieval of A returned, the one of B threw), cycle 43 would deliver three
good frames; yet the loop has 43 passes, 0 to 42, no retrieval of cycle 43 is
ever made, and the exit code is 1. -/
theorem c2_timeout_counterexample :
    Reaches (Record.iteration timeoutAtB42) 42 ∧
      (Record.retrieveAll timeoutAtB42 42).events =
        [.retrieveResult .A 42 5000, .retrieveResult .B 42 5000] ∧
      (Record.retrieveAll timeoutAtB42 42).result =
        .error (.thrown (.generic "Grab timed out.")) ∧
      (Record.iteration timeoutAtB42 43).result = .ok .next ∧
      (loop (Record.iteration timeoutAtB42) 100 0).length = 43 ∧
      Event.retrieveResult .A 43 5000 ∉ (Record.main timeoutAtB42 100).events ∧
      (Record.main timeoutAtB42 100).outcome = .returned 1 := by
  decide

/-- C8, as the code has it: when the first `Add` of a video writer throws a
`GenericException` in a pass `k` that the loop reaches with three good
frames, the pass ends at that call (the writers that come later and all
displays get nothing in this cycle), it is the last pass of the loop, the
handler prints the description, and once the prompt has read a newline and
`PylonTerminate` has returned, `main` returns 1. -/
theorem c8_write_failure_is_fatal (w : World) (k fuel i : Nat) (d : String)
    (hinit : w.throws .pylonInitialize = none) (hk : k < fuel)
    (hs : ∃ u, (Record.startup w).result = .ok u)
    (hreach : Reaches (Record.iteration w) k)
    (hg : w.throws (.isGrabbing k) = none ∧ w.grabbing k = true)
    (hret : ∃ r, (Record.retrieveAll w k).result = .ok r)
    (hsucc : (w.grab .A k).succeeded = true ∧ (w.grab .B k).succeeded = true ∧
      (w.grab .C k).succeeded = true)
    (hbefore : ∀ e, e ∈ (Record.firstAdds w k).take i → w.throws e = none)
    (hfail : ∃ e, (Record.firstAdds w k)[i]? = some e ∧ w.throws e = some (.generic d)) :
    Record.iteration w k =
        ⟨.isGrabbing k :: (Record.retrievals k ++ (Record.firstAdds w k).take (i + 1)),
          .error (.thrown (.generic d))⟩ ∧
      loop (Record.iteration w) fuel 0 =
        (List.range k).map (Record.iteration w) ++ [Record.iteration w k] ∧
      Record.main w fuel =
        epilogue w (eventsThrough (Record.startup w) (Record.iteration w) k ++
          [.cerrException d]) 1 ∧
      ('\n' ∈ w.stdin → w.throws .pylonTerminate = none →
        (Record.main w fuel).outcome = .returned 1) := by
  have hit : Record.iteration w k =
      ⟨.isGrabbing k :: (Record.retrievals k ++ (Record.firstAdds w k).take (i + 1)),
        .error (.thrown (.generic d))⟩ := by
    rw [record_iteration_of_grabbing w k hg.1 hg.2, record_cycle_of_retrieved w k hret]
    obtain ⟨e, he, hthrow⟩ := hfail
    have hc : ((w.grab .A k).succeeded && (w.grab .B k).succeeded &&
        (w.grab .C k).succeeded) = true := by
      simp [hsucc.1, hsucc.2.1, hsucc.2.2]
    simp only [Record.process, Record.grabs, hc, if_true, Run.bind_def]
    match i, he, hbefore with
    | 0, he, _ =>
      simp only [Record.firstAdds, List.getElem?_cons_zero, Option.some.injEq] at he
      subst he
      simp [Run.bind_call_of_some _ _ _ _ hthrow, Record.firstAdds]
    | 1, he, hbefore =>
      simp only [Record.firstAdds, List.getElem?_cons_succ, List.getElem?_cons_zero,
        Option.some.injEq] at he
      subst he
      have h0 := hbefore (.writerAdd .A k 0 (w.grab .A k)) (by simp [Record.firstAdds])
      simp [Run.bind_call_of_none _ _ _ h0, Run.bind_call_of_some _ _ _ _ hthrow,
        Record.firstAdds]
    | 2, he, hbefore =>
      simp only [Record.firstAdds, List.getElem?_cons_succ, List.getElem?_cons_zero,
        Option.some.injEq] at he
      subst he
      have h0 := hbefore (.writerAdd .A k 0 (w.grab .A k)) (by simp [Record.firstAdds])
      have h1 := hbefore (.writerAdd .B k 0 (w.grab .B k)) (by simp [Record.firstAdds])
      simp [Run.bind_call_of_none _ _ _ h0, Run.bind_call_of_none _ _ _ h1,
        Run.bind_call_of_some _ _ _ _ hthrow, Record.firstAdds]
    | n + 3, he, _ => simp [Record.firstAdds] at he
  have hres : (Record.iteration w k).result = .error (.thrown (.generic d)) := by rw [hit]
  have hmain := program_of_generic w (Record.startup w) (Record.iteration w) fuel k d
    hinit hs hreach hres hk
  refine ⟨hit, loop_length_of_stop _ fuel k hreach (by simp [hres]) hk, hmain, ?_⟩
  intro hin ht
  show (program w _ _ fuel).outcome = _
  rw [hmain, epilogue_of_newline w _ 1 hin ht]

/-- Witness of the corrected C8: the writer of camera B fails in cycle 0. -/
theorem c8_write_failure_is_fatal_witness :
    (∃ e, (Record.firstAdds diskFull 0)[1]? = some e ∧
        diskFull.throws e = some (.generic "Failed to write: no space left on device.")) ∧
      (Record.main diskFull 10).outcome = .returned 1 :=
  ⟨⟨_, rfl, rfl⟩,
    (c8_write_failure_is_fatal diskFull 0 10 1 "Failed to write: no space left on device."
      rfl (by decide) ⟨(), rfl⟩ (by decide) ⟨rfl, rfl⟩ ⟨_, rfl⟩ (by decide) (by decide)
      ⟨_, rfl, rfl⟩).2.2.2 (by decide) rfl⟩

/-- C8 as stated fails.  The writer of camera B throws in cycle 0 while all
three frames are good and the later cycles would be fine; the pass stops at
that call, the writer of camera C never gets a frame, no display is ever
updated, the loop has a single pass, and the exit code is 1. -/
theorem c8_write_failure_counterexample :
    (Record.iteration diskFull 0).events =
        [.isGrabbing 0, .retrieveResult .A 0 5000, .retrieveResult .B 0 5000,
          .retrieveResult .C 0 5000, .writerAdd .A 0 0 okFrame, .writerAdd .B 0 0 okFrame] ∧
      (Record.iteration diskFull 1).result = .ok .next ∧
      (loop (Record.iteration diskFull) 10 0).length = 1 ∧
      (∀ e, e ∈ (Record.main diskFull 10).events →
        e.isAddOf .C = false ∧ e.isDisplay = false) ∧
      (Record.main diskFull 10).outcome = .returned 1 := by
  decide

/-- C7, as the code has it.  In the recording program, when pass `k` of the
loop polls the key (three good frames, no call of the cycle throws) and the
poll returns a value whose conversion to `char` is `q`, the pass ends with
the `break`, it is the last pass of the loop, `exitCode` is still 0, and
once the prompt has read a newline and `PylonTerminate` has returned, `main`
returns 0.  In the display program the value of the poll is not used: a
cycle that runs to its end is followed by the next pass whatever the key. -/
theorem c7_stop_key (w : World) (k fuel : Nat)
    (hinit : w.throws .pylonInitialize = none) (hk : k < fuel)
    (hg : w.throws (.isGrabbing k) = none ∧ w.grabbing k = true) :
    ((∃ u, (Record.startup w).result = .ok u) → Reaches (Record.iteration w) k →
      (∃ c, (Record.cycle w k).result = .ok c) →
      ((w.grab .A k).succeeded = true ∧ (w.grab .B k).succeeded = true ∧
        (w.grab .C k).succeeded = true) →
      toCharCode (w.key k) = 'q'.toNat →
      Record.iteration w k =
          ⟨.isGrabbing k ::
            (Record.retrievals k ++ (Record.fanOut k (Record.grabs w k) ++ [.waitKey k 1])),
            .ok .breakKey⟩ ∧
        loop (Record.iteration w) fuel 0 =
          (List.range k).map (Record.iteration w) ++ [Record.iteration w k] ∧
        Record.main w fuel =
          epilogue w (eventsThrough (Record.startup w) (Record.iteration w) k) 0 ∧
        ('\n' ∈ w.stdin → w.throws .pylonTerminate = none →
          (Record.main w fuel).outcome = .returned 0)) ∧
    (∀ c, (Multi.cycle w k).result = .ok c →
      (Multi.iteration w k).result = .ok .next ∧
        ∀ n, loop (Multi.iteration w) (n + 1) k =
          Multi.iteration w k :: loop (Multi.iteration w) n (k + 1)) := by
  constructor
  · intro hs hreach hc hsucc hq
    obtain ⟨c, hc⟩ := hc
    have hret : ∃ r, (Record.retrieveAll w k).result = .ok r := by
      obtain ⟨r, hr, _⟩ := Run.bind_result_ok _ _ _ (by simpa [Record.cycle] using hc)
      exact ⟨r, hr⟩
    have hcyc := record_cycle_of_retrieved w k hret
    rw [hcyc] at hc
    have hall : ((Record.grabs w k).1.succeeded && (Record.grabs w k).2.1.succeeded &&
        (Record.grabs w k).2.2.succeeded) = true := by
      simp [Record.grabs, hsucc.1, hsucc.2.1, hsucc.2.2]
    obtain ⟨hev, hcv⟩ := record_process_of_ok w k _ c hall hc
    rw [if_pos hq] at hcv
    subst hcv
    have hit : Record.iteration w k =
        ⟨.isGrabbing k ::
          (Record.retrievals k ++ (Record.fanOut k (Record.grabs w k) ++ [.waitKey k 1])),
          .ok .breakKey⟩ := by
      rw [record_iteration_of_grabbing w k hg.1 hg.2, hcyc]
      simp only [hev]
      simp only at hc
      rw [hc]
    have hres : (Record.iteration w k).result = .ok .breakKey := by rw [hit]
    have hmain := program_of_exit w (Record.startup w) (Record.iteration w) fuel k .breakKey
      hinit hs hreach hres (by simp) hk
    refine ⟨hit, loop_length_of_stop _ fuel k hreach (by simp [hres]) hk, hmain, ?_⟩
    intro hin ht
    show (program w _ _ fuel).outcome = _
    rw [hmain, epilogue_of_newline w _ 0 hin ht]
  · intro c hc
    have hnext := multi_cycle_result w k c hc
    subst hnext
    have hres : (Multi.iteration w k).result = .ok .next := by
      rw [multi_iteration_of_grabbing w k hg.1 hg.2]
      exact hc
    exact ⟨hres, fun n => loop_succ_of_next _ n k hres⟩

/-- Witness of the corrected C7: `q` is polled in cycle 0. -/
theorem c7_stop_key_witness :
    toCharCode (quitKey.key 0) = 'q'.toNat ∧
      (Record.main quitKey 10).outcome = .returned 0 ∧
      (loop (Record.iteration quitKey) 10 0).length = 1 ∧
      (Multi.iteration quitKey 0).result = .ok .next :=
  ⟨by decide,
    ((c7_stop_key quitKey 0 10 rfl (by decide) ⟨rfl, rfl⟩).1 ⟨(), rfl⟩ (by decide)
      ⟨_, rfl⟩ (by decide) (by decide)).2.2.2 (by decide) rfl,
    by decide,
    ((c7_stop_key quitKey 0 10 rfl (by decide) ⟨rfl, rfl⟩).2 .next rfl).1⟩

/-- C7 as stated fails for the display program.  The key poll of cycle 0
returns the code of `q`; the pass still ends with a jump back to the loop
head, cycles 1 and 2 retrieve, convert and show their frames, and the loop
only ends when camera A stops grabbing. -/
theorem c7_stop_key_counterexample :
    (Multi.iteration quitKey 0).events.getLast? = some (.waitKey 0 1) ∧
      quitKey.key 0 = ('q'.toNat : Int) ∧
      (Multi.iteration quitKey 0).result = .ok .next ∧
      Event.retrieveResult .A 1 5000 ∈ (Multi.main quitKey 10).events ∧
      Event.convert .A 1 okFrame ∈ (Multi.main quitKey 10).events ∧
      Event.imshow "A" .A 2 ∈ (Multi.main quitKey 10).events ∧
      (loop (Multi.iteration quitKey) 10 0).length = 4 ∧
      (loop (Multi.iteration quitKey) 10 0).getLast? =
        some ⟨[.isGrabbing 3], .ok .notGrabbing⟩ := by
  decide

/-- C3 fails on the code: in a cycle in which camera A delivered a good frame
and the grab of camera B failed with code 0xE1000014, both programs write the
error code 0 and the empty description of camera A. -/
theorem c3_error_line_is_camera_A :
    (bFails.grab .A 0).succeeded = true ∧
      bFails.grab .B 0 = badFrame ∧
      badFrame.succeeded = false ∧ badFrame.errorCode = 3774873620 ∧
      (Multi.cycle bFails 0).events =
        Multi.retrievals 0 ++ [.coutError 0 ""] ∧
      (Record.cycle bFails 0).events =
        Record.retrievals 0 ++ [.coutError 0 ""] ∧
      Event.coutError 3774873620 "Buffer was incompletely grabbed" ∉
        (Multi.main bFails 10).events ∧
      Event.coutError 3774873620 "Buffer was incompletely grabbed" ∉
        (Record.main bFails 10).events := by
  decide

/-- C4 fails on the code when some, but too few, devices are found: the guard
only tests for zero.  With one device the four-camera program passes the
guard, attaches and opens camera A and then reads `devices[1]` past the end
of the list; with two devices the three-camera program reads `devices[2]`.
Neither run raises the no-camera error or reaches the handler.  With no
device at all both programs do what the claim says. -/
theorem c4_guard_only_tests_zero (fuel : Nat) :
    Multi.main (devicesFound 1) fuel =
        ⟨[.pylonInitialize, .getInstance, .enumerateDevices, .setMaxNumBuffer .A 4,
            .setMaxNumBuffer .B 4, .setMaxNumBuffer .C 4, .setMaxNumBuffer .D 4,
            .deviceAt 0, .createDevice 0, .attach .A 0, .openCamera .A, .deviceAt 1],
          .undefinedBehaviour 1⟩ ∧
      Record.main (devicesFound 2) fuel =
        ⟨[.pylonInitialize, .getInstance, .enumerateDevices, .setMaxNumBuffer .A 4,
            .setMaxNumBuffer .B 4, .setMaxNumBuffer .C 4, .setMaxNumBuffer .D 4,
            .deviceAt 0, .createDevice 0, .attach .A 0, .openCamera .A,
            .deviceAt 1, .createDevice 1, .attach .B 1, .openCamera .B, .deviceAt 2],
          .undefinedBehaviour 2⟩ ∧
      Multi.main (devicesFound 0) fuel =
        ⟨[.pylonInitialize, .getInstance, .enumerateDevices,
            .cerrException "No camera present.", .cerrPressEnter, .pylonTerminate],
          .returned 1⟩ ∧
      Record.main (devicesFound 0) fuel =
        ⟨[.pylonInitialize, .getInstance, .enumerateDevices,
            .cerrException "No camera present.", .cerrPressEnter, .pylonTerminate],
          .returned 1⟩ ∧
      (Multi.main (devicesFound 2) fuel).outcome = .undefinedBehaviour 2 ∧
      (Multi.main (devicesFound 3) fuel).outcome = .undefinedBehaviour 3 ∧
      (Record.main (devicesFound 1) fuel).outcome = .undefinedBehaviour 1 :=
  ⟨rfl, rfl, rfl, rfl, rfl, rfl, rfl⟩

/-- C6 fails on the code: in every cycle of the recording program in which
the three grabs succeed and that runs to its end, the writer of camera A is
given the frame of camera A twice (lines 158 and 167), the writers of B and C
once. -/
theorem c6_writer_A_gets_two_frames (w : World) (k : Nat) (c : Control)
    (hc : (Record.cycle w k).result = .ok c)
    (hsucc : (w.grab .A k).succeeded = true ∧ (w.grab .B k).succeeded = true ∧
      (w.grab .C k).succeeded = true) :
    (Record.cycle w k).events.filter (Event.isAddOf .A) =
        [.writerAdd .A k 0 (w.grab .A k), .writerAdd .A k 1 (w.grab .A k)] ∧
      (Record.cycle w k).events.filter (Event.isAddOf .B) =
        [.writerAdd .B k 0 (w.grab .B k)] ∧
      (Record.cycle w k).events.filter (Event.isAddOf .C) =
        [.writerAdd .C k 0 (w.grab .C k)] := by
  have hret : ∃ r, (Record.retrieveAll w k).result = .ok r := by
    obtain ⟨r, hr, _⟩ := Run.bind_result_ok _ _ _ (by simpa [Record.cycle] using hc)
    exact ⟨r, hr⟩
  have hcyc := record_cycle_of_retrieved w k hret
  rw [hcyc] at hc ⊢
  have hall : ((Record.grabs w k).1.succeeded && (Record.grabs w k).2.1.succeeded &&
      (Record.grabs w k).2.2.succeeded) = true := by
    simp [Record.grabs, hsucc.1, hsucc.2.1, hsucc.2.2]
  obtain ⟨hev, _⟩ := record_process_of_ok w k _ c hall hc
  simp only [hev]
  simp [Record.retrievals, Record.fanOut, Record.grabs, Event.isAddOf]

/-- Witness of C6: the three cycles of a run in which nothing goes wrong put
six frames into the file of camera A and three into each other file. -/
theorem c6_writer_A_gets_two_frames_witness :
    (Record.cycle steady 0).events.filter (Event.isAddOf .A) =
        [.writerAdd .A 0 0 okFrame, .writerAdd .A 0 1 okFrame] ∧
      (loop (Record.iteration steady) 10 0).length = 4 ∧
      ((Record.main steady 10).events.filter (Event.isAddOf .A)).length = 6 ∧
      ((Record.main steady 10).events.filter (Event.isAddOf .B)).length = 3 ∧
      ((Record.main steady 10).events.filter (Event.isAddOf .C)).length = 3 :=
  ⟨(c6_writer_A_gets_two_frames steady 0 .next rfl (by decide)).1,
    by decide, by decide, by decide, by decide⟩

/-- C5, as the code has it: in every run in which `main` returns, it returns
1 exactly when a `GenericException` left the `try` block, in which case the
handler has printed its description, and 0 exactly when the `try` block ended
normally, in which case the last pass of the loop found camera A not grabbing
or (recording program only) took the `break` after the key poll.  A cycle
that only writes the grab-failure line ends without an exception, so it never
leads to the handler.  `main` does return, provided `PylonInitialize` and
`PylonTerminate` return and the prompt reads a newline: 1 when the startup
code or a pass of the loop throws a `GenericException`, 0 when a pass leaves
the loop.  But a run in which `PylonInitialize` throws, or in which an
exception that is not a `GenericException` leaves the `try` block, ends
without `main` returning at all. -/
theorem c5_exit_code (w : World) (fuel : Nat) (code : Int) :
    ((Record.main w fuel).outcome = .returned code →
      (code = 1 ↔ ∃ d, (tryBlock (Record.startup w) (Record.iteration w) fuel).result =
        some (.error (.thrown (.generic d)))) ∧
      (code = 0 ↔ (tryBlock (Record.startup w) (Record.iteration w) fuel).result =
        some (.ok ())) ∧
      (code = 1 → ∃ d, Event.cerrException d ∈ (Record.main w fuel).events) ∧
      (code = 0 → ∃ r, (loop (Record.iteration w) fuel 0).getLast? = some r ∧
        (r.result = .ok .notGrabbing ∨ r.result = .ok .breakKey))) ∧
    ((Multi.main w fuel).outcome = .returned code →
      (code = 1 ↔ ∃ d, (tryBlock (Multi.startup w) (Multi.iteration w) fuel).result =
        some (.error (.thrown (.generic d)))) ∧
      (code = 0 ↔ (tryBlock (Multi.startup w) (Multi.iteration w) fuel).result =
        some (.ok ())) ∧
      (code = 1 → ∃ d, Event.cerrException d ∈ (Multi.main w fuel).events) ∧
      (code = 0 → ∃ r, (loop (Multi.iteration w) fuel 0).getLast? = some r ∧
        r.result = .ok .notGrabbing)) ∧
    (∀ k, (∃ r, (Record.retrieveAll w k).result = .ok r) →
      ¬ ((w.grab .A k).succeeded = true ∧ (w.grab .B k).succeeded = true ∧
        (w.grab .C k).succeeded = true) →
      (Record.cycle w k).result = .ok .next) ∧
    (∀ k, (∃ r, (Multi.retrieveAll w k).result = .ok r) →
      ¬ ((w.grab .A k).succeeded = true ∧ (w.grab .B k).succeeded = true ∧
        (w.grab .C k).succeeded = true ∧ (w.grab .D k).succeeded = true) →
      (Multi.cycle w k).result = .ok .next) ∧
    (w.throws .pylonInitialize = none → '\n' ∈ w.stdin → w.throws .pylonTerminate = none →
      ∀ k,
        ((∀ d, (Record.startup w).result = .error (.thrown (.generic d)) →
            (Record.main w fuel).outcome = .returned 1) ∧
          ((∃ u, (Record.startup w).result = .ok u) → Reaches (Record.iteration w) k →
            k < fuel →
            (∀ c, (Record.iteration w k).result = .ok c → c ≠ .next →
              (Record.main w fuel).outcome = .returned 0) ∧
            (∀ d, (Record.iteration w k).result = .error (.thrown (.generic d)) →
              (Record.main w fuel).outcome = .returned 1))) ∧
        ((∀ d, (Multi.startup w).result = .error (.thrown (.generic d)) →
            (Multi.main w fuel).outcome = .returned 1) ∧
          ((∃ u, (Multi.startup w).result = .ok u) → Reaches (Multi.iteration w) k →
            k < fuel →
            (∀ c, (Multi.iteration w k).result = .ok c → c ≠ .next →
              (Multi.main w fuel).outcome = .returned 0) ∧
            (∀ d, (Multi.iteration w k).result = .error (.thrown (.generic d)) →
              (Multi.main w fuel).outcome = .returned 1)))) ∧
    (∀ x, w.throws .pylonInitialize = some x →
      Record.main w fuel = ⟨[.pylonInitialize], .terminated x⟩ ∧
        Multi.main w fuel = ⟨[.pylonInitialize], .terminated x⟩) ∧
    (w.throws .pylonInitialize = none → ∀ x,
      ((tryBlock (Record.startup w) (Record.iteration w) fuel).result =
          some (.error (.thrown (.other x))) →
        Record.main w fuel =
          ⟨.pylonInitialize :: (tryBlock (Record.startup w) (Record.iteration w) fuel).events,
            .terminated (.other x)⟩) ∧
      ((tryBlock (Multi.startup w) (Multi.iteration w) fuel).result =
          some (.error (.thrown (.other x))) →
        Multi.main w fuel =
          ⟨.pylonInitialize :: (tryBlock (Multi.startup w) (Multi.iteration w) fuel).events,
            .terminated (.other x)⟩)) := by
  refine ⟨?_, ?_, ?_, ?_, fun hi hin ht k =>
    ⟨program_returns w _ _ fuel k hi hin ht, program_returns w _ _ fuel k hi hin ht⟩,
    fun x hi => ⟨program_of_init_throws w _ _ fuel x hi, program_of_init_throws w _ _ fuel x hi⟩,
    fun hi x => ⟨program_of_other w _ _ fuel x hi, program_of_other w _ _ fuel x hi⟩⟩
  · intro h
    rcases program_of_returned w _ _ fuel code h with ⟨h1, d, hd, hmem⟩ | ⟨h0, ht⟩
    · refine ⟨⟨fun _ => ⟨d, hd⟩, fun _ => h1⟩, ⟨fun hc => ?_, fun ht => ?_⟩,
        fun _ => ⟨d, hmem⟩, fun hc => ?_⟩
      · omega
      · rw [hd] at ht
        simp at ht
      · omega
    · refine ⟨⟨fun hc => ?_, fun hex => ?_⟩, ⟨fun _ => ht, fun _ => h0⟩, fun hc => ?_,
        fun _ => (tryBlock_of_ok _ _ fuel ht).2⟩
      · omega
      · obtain ⟨d, hd⟩ := hex
        rw [ht] at hd
        simp at hd
      · omega
  · intro h
    rcases program_of_returned w _ _ fuel code h with ⟨h1, d, hd, hmem⟩ | ⟨h0, ht⟩
    · refine ⟨⟨fun _ => ⟨d, hd⟩, fun _ => h1⟩, ⟨fun hc => ?_, fun ht => ?_⟩,
        fun _ => ⟨d, hmem⟩, fun hc => ?_⟩
      · omega
      · rw [hd] at ht
        simp at ht
      · omega
    · refine ⟨⟨fun hc => ?_, fun hex => ?_⟩, ⟨fun _ => ht, fun _ => h0⟩, fun hc => ?_,
        fun _ => ?_⟩
      · omega
      · obtain ⟨d, hd⟩ := hex
        rw [ht] at hd
        simp at hd
      · omega
      · obtain ⟨r, hr, hres⟩ := (tryBlock_of_ok _ _ fuel ht).2
        refine ⟨r, hr, ?_⟩
        rcases hres with hres | hres
        · exact hres
        · obtain ⟨i, hi⟩ := loop_mem _ _ _ _ (List.mem_of_getLast?_eq_some hr)
          rw [hi] at hres
          exact absurd hres (multi_iteration_result_ne_break w _)
  · intro k hr hn
    have hf : ((Record.grabs w k).1.succeeded && (Record.grabs w k).2.1.succeeded &&
        (Record.grabs w k).2.2.succeeded) = false := by
      simp only [Record.grabs]
      by_contra hcon
      apply hn
      simpa [and_assoc] using hcon
    rw [record_cycle_of_retrieved w k hr, record_process_of_failed w k _ hf]
  · intro k hr hn
    have hf : ((Multi.grabs w k).1.succeeded && (Multi.grabs w k).2.1.succeeded &&
        (Multi.grabs w k).2.2.1.succeeded && (Multi.grabs w k).2.2.2.succeeded) = false := by
      simp only [Multi.grabs]
      by_contra hcon
      apply hn
      simpa [and_assoc] using hcon
    rw [multi_cycle_of_retrieved w k hr, multi_process_of_failed w k _ hf]

/-- Witness of the corrected C5: a run in which nothing goes wrong returns 0, a run in
which a grab fails in cycle 0 returns 0 as well, a run in which a video
writer throws returns 1 after the handler has printed. -/
theorem c5_exit_code_witness :
    (Record.main steady 10).outcome = .returned 0 ∧
      (tryBlock (Record.startup steady) (Record.iteration steady) 10).result = some (.ok ()) ∧
      (Multi.main bFails 10).outcome = .returned 0 ∧
      (Multi.cycle bFails 0).result = .ok .next ∧
      (Record.main diskFull 10).outcome = .returned 1 ∧
      (∃ d, Event.cerrException d ∈ (Record.main diskFull 10).events) :=
  ⟨rfl, (((c5_exit_code steady 10 0).1 rfl).2.1).1 rfl, rfl,
    (c5_exit_code bFails 10 0).2.2.2.1 0 ⟨_, rfl⟩ (by decide), rfl,
    ((c5_exit_code diskFull 10 1).1 rfl).2.2.1 rfl⟩

/-- C5 as stated fails.  Showing the frame of camera A in cycle 0 throws an
exception that is not a `GenericException`; the run of either program ends
there: the handler prints nothing, `main` returns neither 0 nor 1 although
no exception reached the handler. -/
theorem c5_exit_code_counterexample :
    (Record.main displayFails 10).outcome =
        .terminated (.other "cv::Exception: cannot open display") ∧
      (Multi.main displayFails 10).outcome =
        .terminated (.other "cv::Exception: cannot open display") ∧
      (Record.main displayFails 10).events.getLast? = some (.imshow "A" .A 0) ∧
      (Multi.main displayFails 10).events.getLast? = some (.imshow "A" .A 0) ∧
      (Record.main displayFails 10).events.filter Event.isHandlerLine = [] ∧
      (Multi.main displayFails 10).events.filter Event.isHandlerLine = [] ∧
      (Record.main displayFails 10).outcome ≠ .returned 0 ∧
      (Multi.main displayFails 10).outcome ≠ .returned 0 := by
  decide

/-- C10: when the startup code of the recording program runs through, its
video-writer calls are exactly three `SetParameter` calls, one per camera,
each with frame rate 20 and quality 90 and with the width, height and pixel
type read from the node map of camera A, followed by three `Open` calls on
the pairwise distinct paths `AAAA.mp4`, `BBBB.mp4`, `CCCC.mp4`.  No node of
camera B or C is read, so the node values of B and C do not matter; no
retrieval is made in the startup code, and in the trace of `main` the startup
code comes before every pass of the loop. -/
theorem c10_recorder_setup (w : World) (h : ∃ u, (Record.startup w).result = .ok u) :
    (Record.startup w).events.filter Event.isRecorderSetup =
        [.writerSetParameter .A (toUInt32 (w.nodeValue .A "Width" 0))
            (toUInt32 (w.nodeValue .A "Height" 0))
            (w.pixelTypeOf (w.nodeValue .A "PixelFormat" 0)) 20 90,
          .writerSetParameter .B (toUInt32 (w.nodeValue .A "Width" 1))
            (toUInt32 (w.nodeValue .A "Height" 1))
            (w.pixelTypeOf (w.nodeValue .A "PixelFormat" 0)) 20 90,
          .writerSetParameter .C (toUInt32 (w.nodeValue .A "Width" 2))
            (toUInt32 (w.nodeValue .A "Height" 2))
            (w.pixelTypeOf (w.nodeValue .A "PixelFormat" 0)) 20 90,
          .writerOpen .A "AAAA.mp4", .writerOpen .B "BBBB.mp4", .writerOpen .C "CCCC.mp4"] ∧
      ("AAAA.mp4" ≠ "BBBB.mp4" ∧ "AAAA.mp4" ≠ "CCCC.mp4" ∧ "BBBB.mp4" ≠ "CCCC.mp4") ∧
      (∀ e c node occ, e ∈ (Record.startup w).events → e = .nodeGetValue c node occ →
        c = .A) ∧
      (∀ w2 : World, (∃ u, (Record.startup w2).result = .ok u) →
        w2.nodeValue .A = w.nodeValue .A → w2.pixelTypeOf = w.pixelTypeOf →
        (Record.startup w2).events.filter Event.isRecorderSetup =
          (Record.startup w).events.filter Event.isRecorderSetup) ∧
      (∀ e, e ∈ (Record.startup w).events → e.isRetrieve = false) ∧
      (w.throws .pylonInitialize = none → ∀ fuel, ∃ rest,
        (Record.main w fuel).events = .pylonInitialize :: ((Record.startup w).events ++ rest)) := by
  have key : ∀ v : World, (∃ u, (Record.startup v).result = .ok u) →
      (Record.startup v).events =
        [.getInstance, .enumerateDevices] ++
          ([.setMaxNumBuffer .A 4, .setMaxNumBuffer .B 4, .setMaxNumBuffer .C 4,
            .setMaxNumBuffer .D 4,
            .deviceAt 0, .createDevice 0, .attach .A 0, .openCamera .A,
            .deviceAt 1, .createDevice 1, .attach .B 1, .openCamera .B,
            .deviceAt 2, .createDevice 2, .attach .C 2, .openCamera .C] ++
          ([.getSerialNumber .A, .coutUsingDevice .A (v.serial .A),
            .getSerialNumber .B, .coutUsingDevice .B (v.serial .B),
            .getSerialNumber .C, .coutUsingDevice .C (v.serial .C),
            .startGrabbing .A, .startGrabbing .B, .startGrabbing .C,
            .setOutputPixelFormat .A, .setOutputPixelFormat .B, .setOutputPixelFormat .C] ++
          (Record.setupRecorders v).events)) ∧
        (∃ u, (Record.setupRecorders v).result = .ok u) := by
    intro v hv
    obtain ⟨hev, h1, h2, h3, h4⟩ := record_startup_of_ok v hv
    rw [hev, record_enumerate_of_ok v h1, record_attachCameras_of_ok v h2,
      record_startCameras_of_ok v h3]
    exact ⟨rfl, h4⟩
  have filt : ∀ v : World, (∃ u, (Record.startup v).result = .ok u) →
      (Record.startup v).events.filter Event.isRecorderSetup =
        [.writerSetParameter .A (toUInt32 (v.nodeValue .A "Width" 0))
            (toUInt32 (v.nodeValue .A "Height" 0))
            (v.pixelTypeOf (v.nodeValue .A "PixelFormat" 0)) 20 90,
          .writerSetParameter .B (toUInt32 (v.nodeValue .A "Width" 1))
            (toUInt32 (v.nodeValue .A "Height" 1))
            (v.pixelTypeOf (v.nodeValue .A "PixelFormat" 0)) 20 90,
          .writerSetParameter .C (toUInt32 (v.nodeValue .A "Width" 2))
            (toUInt32 (v.nodeValue .A "Height" 2))
            (v.pixelTypeOf (v.nodeValue .A "PixelFormat" 0)) 20 90,
          .writerOpen .A "AAAA.mp4", .writerOpen .B "BBBB.mp4", .writerOpen .C "CCCC.mp4"] := by
    intro v hv
    obtain ⟨hev, h4⟩ := key v hv
    rw [hev, record_setupRecorders_of_ok v h4]
    simp [Event.isRecorderSetup]
  obtain ⟨hev, h4⟩ := key w h
  refine ⟨filt w h, by decide, ?_, ?_, ?_, ?_⟩
  · intro e c node occ he heq
    subst heq
    rw [hev, record_setupRecorders_of_ok w h4] at he
    simp at he
    rcases he with h | h | h | h | h | h | h <;> exact h.1
  · intro w2 h2 hnode hpix
    rw [filt w2 h2, filt w h, hnode, hpix]
  · intro e he
    rw [hev, record_setupRecorders_of_ok w h4] at he
    simp at he
    rcases he with h | h | h | h | h | h | h | h | h | h | h | h | h | h | h | h | h | h |
      h | h | h | h | h | h | h | h | h | h | h | h | h | h | h | h | h | h | h | h | h | h |
      h | h | h | h | h | h | h <;> subst h <;> rfl
  · intro hi fuel
    exact program_events_of_started w _ _ fuel hi h

/-- Witness of C10: the node map of camera A says 1920 x 1200, those of B
and C say 640 x 480; all three writers are set up with 1920 x 1200. -/
theorem c10_recorder_setup_witness :
    (∃ u, (Record.startup steady).result = .ok u) ∧
      steady.nodeValue .B "Width" 0 = 640 ∧
      (Record.startup steady).events.filter Event.isRecorderSetup =
        [.writerSetParameter .A 1920 1200 17301505 20 90,
          .writerSetParameter .B 1920 1200 17301505 20 90,
          .writerSetParameter .C 1920 1200 17301505 20 90,
          .writerOpen .A "AAAA.mp4", .writerOpen .B "BBBB.mp4", .writerOpen .C "CCCC.mp4"] :=
  ⟨⟨(), rfl⟩, rfl, (c10_recorder_setup steady ⟨(), rfl⟩).1⟩

end Basler
